import Mathlib

/-!
Shallow embedding of the per-scrape collection pipeline of junos_exporter
(src/collector/*.go) and proofs about it.

Conventions of the embedding:
* Go `float64` values are modelled as `ℚ`; all values handled by the claims
  (0/1/3 state encodings, integer counters, the fixed 1000000 multiplier)
  are exact in both representations.
* A Prometheus metric channel write `ch <- prometheus.MustNewConstMetric ...`
  is modelled as appending a `Event.sample` to an event list; a
  `log.Errorf` call is modelled as appending `Event.logError`.
* XML unmarshalling is not modelled: the `process*Reply` functions take the
  already-decoded reply structures (the Go structs defined next to them),
  with the `,chardata`/attr wrapper structs (`powerText`, `reText`, ...)
  flattened into plain `String` fields.
* Network traffic of a collector's `Get` is modelled as a `NetEvent` trace:
  one `dialSSH` per `netconf.DialSSH` call and one `exec` per `Session.Exec`.
-/

namespace JunosExporter

/-- Models the ASCII part of Go `unicode.IsSpace`, used by `strings.TrimSpace`. -/
def isSpaceChar (c : Char) : Bool :=
  c = ' ' || c = '\t' || c = '\n' || c = '\x0d' || c = '\x0b' || c = '\x0c'

/-- Models Go `strings.TrimSpace`: drop leading and trailing whitespace. -/
def trimSpace (s : String) : String :=
  ⟨((s.data.dropWhile isSpaceChar).reverse.dropWhile isSpaceChar).reverse⟩

/-- Models Go `strings.ToLower` (ASCII letters, which is all the pipeline compares). -/
def toLower (s : String) : String :=
  ⟨s.data.map Char.toLower⟩

/-- Models Go `strings.Contains s substr`: substr occurs somewhere in s. -/
def strContains (s substr : String) : Bool :=
  (List.range (s.data.length + 1)).any (fun i => substr.data.isPrefixOf (s.data.drop i))

/-- Decimal digit test, as used by the regular expression `[0-9]+`. -/
def isDigitChar (c : Char) : Bool :=
  48 ≤ c.toNat && c.toNat ≤ 57

/-- Numeric value of a decimal digit character. -/
def digitVal (c : Char) : ℕ := c.toNat - 48

/-- Value of a list of decimal digit characters read left to right. -/
def digitsToNat (cs : List Char) : ℕ :=
  cs.foldl (fun a c => a * 10 + digitVal c) 0

/-- Models `regexp.MustCompile("[0-9]+").FindString`: the leftmost maximal
run of decimal digits of the string (empty if there is none). -/
def findDigitRun (s : String) : String :=
  ⟨(s.data.dropWhile (fun c => ¬ isDigitChar c)).takeWhile isDigitChar⟩

/-- Exponent part of `goParseFloat`; `cs` is what follows the `e`/`E`, and
`num`/`den` carry the signed mantissa read so far as a fraction. An empty
list has head `' '`, which matches none of the sign/digit tests. -/
def goParseExp (num : Int) (den : ℕ) (cs : List Char) : Option ℚ :=
  let negExp := cs.headD ' ' == '-'
  let ds0 := if cs.headD ' ' == '+' || cs.headD ' ' == '-' then cs.tail else cs
  let ds := ds0.takeWhile isDigitChar
  let rest := ds0.dropWhile isDigitChar
  if ds.isEmpty || ¬ rest.isEmpty then none
  else if negExp then some (mkRat num (den * 10 ^ digitsToNat ds))
  else some (mkRat (num * 10 ^ digitsToNat ds) den)

/-- Models Go `strconv.ParseFloat (·) 64` on ordinary decimal input: optional
sign, digits with an optional fraction part, optional decimal exponent;
`none` models a syntax error (for which Go returns value 0 together with the
error). The special forms `Inf`, `NaN` and hexadecimal floats, and the
rounding of values not representable in binary64, are outside the scope of
every claim and are not modelled. -/
def goParseFloat (s : String) : Option ℚ :=
  let neg := s.data.headD ' ' == '-'
  let cs1 := if s.data.headD ' ' == '+' || s.data.headD ' ' == '-' then s.data.tail else s.data
  let intPart := cs1.takeWhile isDigitChar
  let afterInt := cs1.dropWhile isDigitChar
  let hasDot := afterInt.headD ' ' == '.'
  let afterDot := if hasDot then afterInt.tail else afterInt
  let fracPart := if hasDot then afterDot.takeWhile isDigitChar else []
  let afterFrac := if hasDot then afterDot.dropWhile isDigitChar else afterInt
  if intPart.isEmpty && fracPart.isEmpty then none
  else
    let mantNum : ℕ := digitsToNat intPart * 10 ^ fracPart.length + digitsToNat fracPart
    let mantDen : ℕ := 10 ^ fracPart.length
    let signedNum : Int := if neg then -(mantNum : Int) else (mantNum : Int)
    if afterFrac.isEmpty then some (mkRat signedNum mantDen)
    else if afterFrac.headD ' ' == 'e' || afterFrac.headD ' ' == 'E' then
      goParseExp signedNum mantDen afterFrac.tail
    else none

/-- Kind of an emitted sample (`prometheus.GaugeValue` / `prometheus.CounterValue`). -/
inductive MetricKind where
  | gauge
  | counter
deriving DecidableEq

/-- Models a `*prometheus.Desc` as registered by `promDesc`/`colPromDesc`:
the fully qualified metric name together with the declared label schema. -/
structure Desc where
  name : String
  labelNames : List String
deriving DecidableEq

/-- One metric sample sent to the channel by `prometheus.MustNewConstMetric`. -/
structure Sample where
  desc : Desc
  kind : MetricKind
  value : ℚ
  labelValues : List String
deriving DecidableEq

/-- Observable side effects of the mapping pipeline: a sample sent to the
Prometheus channel, or a locally logged error message. -/
inductive Event where
  | sample (s : Sample)
  | logError (msg : String)
deriving DecidableEq

/-- Models `promDesc` (collector.go): `junos_<name>` with the given labels. -/
def promDesc (metricName : String) (labels : List String) : Desc :=
  ⟨"junos_" ++ metricName, labels⟩

/-- Models `colPromDesc` (collector.go): `junos_<subsystem>_<name>`. -/
def colPromDesc (subsystem metricName : String) (labels : List String) : Desc :=
  ⟨"junos_" ++ subsystem ++ "_" ++ metricName, labels⟩

/-- Models `newGauge` (collector.go lines 110-118): an empty field emits
nothing; otherwise the field is trimmed and parsed, a parse failure is
logged, and in either case one gauge sample is sent to the channel (on
failure with the 0 value Go ParseFloat returns alongside the error). -/
def newGauge (descName : Desc) (metric : String) (labels : List String) : List Event :=
  if metric ≠ "" then
    match goParseFloat (trimSpace metric) with
    | some i => [Event.sample ⟨descName, MetricKind.gauge, i, labels⟩]
    | none => [Event.logError "could not convert metric to float64",
               Event.sample ⟨descName, MetricKind.gauge, 0, labels⟩]
  else []

/-- Models `newCounter` (collector.go lines 120-128); identical to `newGauge`
except for the sample kind. -/
def newCounter (descName : Desc) (metric : String) (labels : List String) : List Event :=
  if metric ≠ "" then
    match goParseFloat (trimSpace metric) with
    | some i => [Event.sample ⟨descName, MetricKind.counter, i, labels⟩]
    | none => [Event.logError "could not convert metric to float64",
               Event.sample ⟨descName, MetricKind.counter, 0, labels⟩]
  else []

/-- Models `newGaugeMB` (collector.go lines 130-140): extract the first run
of digits, parse it, multiply by the fixed 1000000 multiplier. -/
def newGaugeMB (descName : Desc) (metric : String) (labels : List String) : List Event :=
  if metric ≠ "" then
    match goParseFloat (trimSpace (findDigitRun metric)) with
    | some i => [Event.sample ⟨descName, MetricKind.gauge, i * 1000000, labels⟩]
    | none => [Event.logError "could not convert metric to float64",
               Event.sample ⟨descName, MetricKind.gauge, 0 * 1000000, labels⟩]
  else []

/-- All samples among a list of events (channel contents, logs dropped). -/
def samplesOf (es : List Event) : List Sample :=
  es.filterMap (fun e => match e with | .sample s => some s | _ => none)

/-- Number of samples among the events. -/
def sampleCount (es : List Event) : ℕ := (samplesOf es).length

/-- Number of logged errors among the events. -/
def logCount (es : List Event) : ℕ :=
  (es.filter (fun e => match e with | .logError _ => true | _ => false)).length

/-- Values of the samples carrying a given Desc, in emission order. -/
def descValues (d : Desc) (es : List Event) : List ℚ :=
  es.filterMap (fun e =>
    match e with
    | .sample s => if s.desc = d then some s.value else none
    | _ => none)

/-- A sample respects its Desc when it supplies exactly as many label values
as the Desc declares label names (the condition under which
`prometheus.MustNewConstMetric` does not panic). -/
def arityOk (e : Event) : Bool :=
  match e with
  | .sample s => s.labelValues.length == s.desc.labelNames.length
  | .logError _ => true

/-! ### Scheduler bookkeeping (collector.go) -/

/-- Desc `junosDesc["ScrapeErrTotal"]` (collector.go line 24). -/
def junosDescScrapeErrTotal : Desc := promDesc "scrape_errors_total" ["collector"]

/-- Desc `junosDesc["ScrapeDuration"]` (collector.go line 25). -/
def junosDescScrapeDuration : Desc := promDesc "scrape_duration_seconds" ["collector"]

/-- Desc `junosDesc["CollectorUp"]` (collector.go line 26). -/
def junosDescCollectorUp : Desc := promDesc "collector_up" ["collector"]

/-- Models `Exporter.runCollector` (collector.go lines 75-93) after the
collector's `Get` has returned `(errors, totalErrors)` and the wall clock
measured `duration`: always emit the duration gauge and the cumulative
error-total gauge, then `collector_up` 0 plus one log line per error when
the error list is non-empty, and `collector_up` 1 otherwise. -/
def runCollector (collectorName : String) (errors : List String)
    (totalErrors : ℚ) (duration : ℚ) : List Event :=
  [Event.sample ⟨junosDescScrapeDuration, MetricKind.gauge, duration, [collectorName]⟩,
   Event.sample ⟨junosDescScrapeErrTotal, MetricKind.gauge, totalErrors, [collectorName]⟩] ++
  (if errors.length > 0 then
    Event.sample ⟨junosDescCollectorUp, MetricKind.gauge, 0, [collectorName]⟩ ::
      errors.map (fun e => Event.logError e)
  else
    [Event.sample ⟨junosDescCollectorUp, MetricKind.gauge, 1, [collectorName]⟩])

/-! ### Power collector (power.go) -/

/-- Desc `powerDesc["State"]` (power.go line 20). -/
def powerDescState : Desc := colPromDesc "power" "module_state" ["module"]

/-- Desc `powerDesc["CapacityActual"]`. -/
def powerDescCapacityActual : Desc := colPromDesc "power" "module_capacity_actual_watts" ["module"]

/-- Desc `powerDesc["CapacityMax"]`. -/
def powerDescCapacityMax : Desc := colPromDesc "power" "module_capacity_maximum_watts" ["module"]

/-- Desc `powerDesc["ACInputState"]` (power.go line 23). -/
def powerDescACInputState : Desc := colPromDesc "power" "module_ac_input_state" ["module"]

/-- Desc `powerDesc["ACExpectedFeeds"]`. -/
def powerDescACExpectedFeeds : Desc := colPromDesc "power" "module_ac_input_expected_feeds" ["module"]

/-- Desc `powerDesc["ACConnectedFeeds"]`. -/
def powerDescACConnectedFeeds : Desc := colPromDesc "power" "module_ac_input_connected_feeds" ["module"]

/-- Desc `powerDesc["DCOutputPower"]`. -/
def powerDescDCOutputPower : Desc := colPromDesc "power" "module_dc_output_watts" ["module", "zone"]

/-- Desc `powerDesc["DCOutputCurrent"]`. -/
def powerDescDCOutputCurrent : Desc := colPromDesc "power" "module_dc_output_amperes" ["module", "zone"]

/-- Desc `powerDesc["DCOutputVoltage"]`. -/
def powerDescDCOutputVoltage : Desc := colPromDesc "power" "module_dc_output_volts" ["module", "zone"]

/-- Desc `powerDesc["DCOutputLoad"]`. -/
def powerDescDCOutputLoad : Desc := colPromDesc "power" "module_dc_output_load_ratio" ["module", "zone"]

/-- Desc `powerDesc["CapacityZoneActual"]`. -/
def powerDescCapacityZoneActual : Desc := colPromDesc "power" "system_zone_capacity_actual_watts" ["zone"]

/-- Desc `powerDesc["CapacityZoneMax"]`. -/
def powerDescCapacityZoneMax : Desc := colPromDesc "power" "system_zone_capacity_maximum_watts" ["zone"]

/-- Desc `powerDesc["CapacityZoneAllocated"]`. -/
def powerDescCapacityZoneAllocated : Desc := colPromDesc "power" "system_zone_allocated_watts" ["zone"]

/-- Desc `powerDesc["CapacityZoneRemaining"]`. -/
def powerDescCapacityZoneRemaining : Desc := colPromDesc "power" "system_zone_remaining_watts" ["zone"]

/-- Desc `powerDesc["CapacityZoneUsage"]`. -/
def powerDescCapacityZoneUsage : Desc := colPromDesc "power" "system_zone_usage_watts" ["zone"]

/-- Desc `powerDesc["CapacitySysActual"]` (no labels). -/
def powerDescCapacitySysActual : Desc := colPromDesc "power" "system_capacity_actual_watts" []

/-- Desc `powerDesc["CapacitySysMax"]` (no labels). -/
def powerDescCapacitySysMax : Desc := colPromDesc "power" "system_capacity_maximum_watts" []

/-- Desc `powerDesc["CapacitySysRemaining"]` (no labels). -/
def powerDescCapacitySysRemaining : Desc := colPromDesc "power" "system_remaining_watts" []

/-- Desc `powerDesc["DCUsage"]`. -/
def powerDescDCUsage : Desc := colPromDesc "power" "module_dc_usage_watts" ["module"]

/-- Decoded `pem-capacity-detail` element (`powerPEMCapacity`, power.go). -/
structure powerPEMCapacity where
  CapacityActual : String
  CapacityMax : String

/-- Decoded `ac-input-detail` element (`powerACInput`, power.go). -/
structure powerACInput where
  AcInput : String
  AcExpectFeed : String
  AcActualFeed : String

/-- Decoded `dc-output-detail` element (`powerDCOutput`, power.go). -/
structure powerDCOutput where
  DcPower : String
  Zone : String
  DcCurrent : String
  DcVoltage : String
  DcLoad : String

/-- Decoded `power-usage-item` element (`powerItem`, power.go). -/
structure powerItem where
  Name : String
  State : String
  PemCapacityDetail : powerPEMCapacity
  AcInputDetail : powerACInput
  DcOutputDetail : powerDCOutput

/-- Decoded `power-usage-zone-information` element (`powerZone`, power.go). -/
structure powerZone where
  Zone : String
  CapacityActual : String
  CapacityMax : String
  CapacityAllocated : String
  CapacityRemaining : String
  CapacityActualUsage : String

/-- Decoded `power-usage-system` element (`powerSystem`, power.go). -/
structure powerSystem where
  PowerUsageZoneInformation : List powerZone
  CapacitySysActual : String
  CapacitySysMax : String
  CapacitySysRemaining : String

/-- Decoded `power-usage-fru-item` element (`powerFRUItem`, power.go). -/
structure powerFRUItem where
  Name : String
  DcPower : String

/-- Decoded `power-usage-information` element (`powerInformation`, power.go). -/
structure powerInformation where
  PowerUsageItem : List powerItem
  PowerUsageSystem : List powerSystem
  PowerUsageFruItem : List powerFRUItem

/-- One iteration of the `PowerUsageItem` loop of `processPowerNetconfReply`
(power.go lines 90-114). Note the two state comparisons are the Go `==`
operator on strings, i.e. case sensitive. -/
def processPowerItem (powerData : powerItem) : List Event :=
  let labels := [trimSpace powerData.Name]
  let powerState : ℚ := if powerData.State = "Online" then 1.0 else 0.0
  let powerACInputState : ℚ := if powerData.AcInputDetail.AcInput = "OK" then 1.0 else 0.0
  let labelsDCOutput := [trimSpace powerData.Name, trimSpace powerData.DcOutputDetail.Zone]
  [Event.sample ⟨powerDescState, MetricKind.gauge, powerState, labels⟩] ++
  newGauge powerDescCapacityActual powerData.PemCapacityDetail.CapacityActual labels ++
  newGauge powerDescCapacityMax powerData.PemCapacityDetail.CapacityMax labels ++
  [Event.sample ⟨powerDescACInputState, MetricKind.gauge, powerACInputState, labels⟩] ++
  newGauge powerDescACExpectedFeeds powerData.AcInputDetail.AcExpectFeed labels ++
  newGauge powerDescACConnectedFeeds powerData.AcInputDetail.AcActualFeed labels ++
  newGauge powerDescDCOutputPower powerData.DcOutputDetail.DcPower labelsDCOutput ++
  newGauge powerDescDCOutputCurrent powerData.DcOutputDetail.DcCurrent labelsDCOutput ++
  newGauge powerDescDCOutputVoltage powerData.DcOutputDetail.DcVoltage labelsDCOutput ++
  newGauge powerDescDCOutputLoad powerData.DcOutputDetail.DcLoad labelsDCOutput

/-- One iteration of the `PowerUsageSystem` loop of `processPowerNetconfReply`
(power.go lines 115-127). -/
def processPowerSystem (powerSys : powerSystem) : List Event :=
  (powerSys.PowerUsageZoneInformation.map (fun zone =>
    let labels := [trimSpace zone.Zone]
    newGauge powerDescCapacityZoneActual zone.CapacityActual labels ++
    newGauge powerDescCapacityZoneMax zone.CapacityMax labels ++
    newGauge powerDescCapacityZoneAllocated zone.CapacityAllocated labels ++
    newGauge powerDescCapacityZoneRemaining zone.CapacityRemaining labels ++
    newGauge powerDescCapacityZoneUsage zone.CapacityActualUsage labels)).flatten ++
  newGauge powerDescCapacitySysActual powerSys.CapacitySysActual [] ++
  newGauge powerDescCapacitySysMax powerSys.CapacitySysMax [] ++
  newGauge powerDescCapacitySysRemaining powerSys.CapacitySysRemaining []

/-- Models `processPowerNetconfReply` (power.go lines 84-132) applied to the
already-decoded reply. -/
def processPowerNetconfReply (reply : powerInformation) : List Event :=
  (reply.PowerUsageItem.map processPowerItem).flatten ++
  (reply.PowerUsageSystem.map processPowerSystem).flatten ++
  (reply.PowerUsageFruItem.map (fun fruItem =>
    newGauge powerDescDCUsage fruItem.DcPower [fruItem.Name])).flatten

/-! ### FPC collector (fpc.go) -/

/-- Desc `fpcDesc["State"]` (fpc.go line 19). -/
def fpcDescState : Desc := colPromDesc "fpc" "state" ["slot"]

/-- Desc `fpcDesc["Temp"]`. -/
def fpcDescTemp : Desc := colPromDesc "fpc" "temperature_celsius" ["slot"]

/-- Desc `fpcDesc["CPUTotal"]`. -/
def fpcDescCPUTotal : Desc := colPromDesc "fpc" "cpu_total" ["slot"]

/-- Desc `fpcDesc["CPUInterrupt"]`. -/
def fpcDescCPUInterrupt : Desc := colPromDesc "fpc" "cpu_interrupt" ["slot"]

/-- Desc `fpcDesc["CPUAvg"]`: `fpcCPULabels = append(fpcLabels, "timespan")`. -/
def fpcDescCPUAvg : Desc := colPromDesc "fpc" "cpu_avg" ["slot", "timespan"]

/-- Desc `fpcDesc["MemoryDramSize"]`. -/
def fpcDescMemoryDramSize : Desc := colPromDesc "fpc" "memory_dram_size" ["slot"]

/-- Desc `fpcDesc["MemoryHeapUtil"]`. -/
def fpcDescMemoryHeapUtil : Desc := colPromDesc "fpc" "memory_heap_utilization" ["slot"]

/-- Desc `fpcDesc["MemoryBufferUtil"]`. -/
def fpcDescMemoryBufferUtil : Desc := colPromDesc "fpc" "memory_buffer_utilization" ["slot"]

/-- Decoded `fpc` element (`fpcItem`, fpc.go); the numeric fields are decoded
by the XML layer directly into `float64`, modelled as `ℚ`. -/
structure fpcItem where
  Slot : String
  State : String
  Temperature : ℚ
  CPUTotal : ℚ
  CPUInterrupt : ℚ
  CPU1MAvg : ℚ
  CPU5MinAvg : ℚ
  CPU15MinAvg : ℚ
  MemoryDRAMSize : ℚ
  MemoryHeapUtilization : ℚ
  MemoryBufferUtilization : ℚ

/-- One iteration of the `FPCItem` loop of `processFPCNetconfReply`
(fpc.go lines 77-104): the state gauge takes value 0 for "offline", 1 for
"online" (in which case the detail gauges are also emitted first) and the
initial value 3 otherwise (including "empty"); comparisons lowercase the
field first. -/
def processFPCItem (data : fpcItem) : List Event :=
  let labels := [trimSpace data.Slot]
  let detail : List Event :=
    if toLower data.State = "offline" then []
    else if toLower data.State = "online" then
      [Event.sample ⟨fpcDescTemp, MetricKind.gauge, data.Temperature, labels⟩,
       Event.sample ⟨fpcDescCPUTotal, MetricKind.gauge, data.CPUTotal, labels⟩,
       Event.sample ⟨fpcDescCPUInterrupt, MetricKind.gauge, data.CPUInterrupt, labels⟩,
       Event.sample ⟨fpcDescCPUAvg, MetricKind.gauge, data.CPU1MAvg, labels ++ ["1m"]⟩,
       Event.sample ⟨fpcDescCPUAvg, MetricKind.gauge, data.CPU5MinAvg, labels ++ ["5m"]⟩,
       Event.sample ⟨fpcDescCPUAvg, MetricKind.gauge, data.CPU15MinAvg, labels ++ ["15m"]⟩,
       Event.sample ⟨fpcDescMemoryDramSize, MetricKind.gauge, data.MemoryDRAMSize, labels⟩,
       Event.sample ⟨fpcDescMemoryHeapUtil, MetricKind.gauge, data.MemoryHeapUtilization, labels⟩,
       Event.sample ⟨fpcDescMemoryBufferUtil, MetricKind.gauge, data.MemoryBufferUtilization, labels⟩]
    else []
  let state : ℚ :=
    if toLower data.State = "offline" then 0.0
    else if toLower data.State = "online" then 1.0
    else if toLower data.State = "empty" then 3.0
    else 3.0
  detail ++ [Event.sample ⟨fpcDescState, MetricKind.gauge, state, labels⟩]

/-- Models `processFPCNetconfReply` (fpc.go lines 71-106) applied to the
already-decoded list of `fpc` elements. -/
def processFPCNetconfReply (items : List fpcItem) : List Event :=
  (items.map processFPCItem).flatten

/-! ### Route engine collector (route_engine.go; the same emission logic
appears as `sendREMetrics` in ipsec.go, where the spelling-variant helper
`newGuageMB` of route_engine.go is named `newGaugeMB`) -/

/-- Desc `reDesc["state"]` (route_engine.go line 18). -/
def reDescState : Desc := colPromDesc "route_engine" "state" ["slot"]

/-- Desc `reDesc["temp"]`. -/
def reDescTemp : Desc := colPromDesc "route_engine" "temperature_celsius" ["slot"]

/-- Desc `reDesc["cpuTemp"]`. -/
def reDescCpuTemp : Desc := colPromDesc "route_engine" "cpu_temperature_celsius" ["slot"]

/-- Desc `reDesc["memTotal"]`. -/
def reDescMemTotal : Desc := colPromDesc "route_engine" "memory_total_bytes" ["slot"]

/-- Desc `reDesc["memUsed"]`. -/
def reDescMemUsed : Desc := colPromDesc "route_engine" "memory_used_bytes" ["slot"]

/-- Desc `reDesc["memBuf"]`. -/
def reDescMemBuf : Desc := colPromDesc "route_engine" "memory_buffer_utilization_percent" ["slot"]

/-- Desc `reDesc["memDRAM"]`. -/
def reDescMemDRAM : Desc := colPromDesc "route_engine" "memory_dram_size_bytes" ["slot"]

/-- Desc `reDesc["memInstalled"]`. -/
def reDescMemInstalled : Desc := colPromDesc "route_engine" "memory_installed_size_bytes" ["slot"]

/-- Desc `reDesc["cpuUser"]`: `reCPULabels = append(reLabels, "timespan")`. -/
def reDescCpuUser : Desc := colPromDesc "route_engine" "cpu_user_percent" ["slot", "timespan"]

/-- Desc `reDesc["cpuBackground"]`. -/
def reDescCpuBackground : Desc := colPromDesc "route_engine" "cpu_background_percent" ["slot", "timespan"]

/-- Desc `reDesc["cpuSystem"]`. -/
def reDescCpuSystem : Desc := colPromDesc "route_engine" "cpu_system_percent" ["slot", "timespan"]

/-- Desc `reDesc["cpuInterrupt"]`. -/
def reDescCpuInterrupt : Desc := colPromDesc "route_engine" "cpu_interrupt_percent" ["slot", "timespan"]

/-- Desc `reDesc["cpuIdle"]`. -/
def reDescCpuIdle : Desc := colPromDesc "route_engine" "cpu_idle_percent" ["slot", "timespan"]

/-- Desc `reDesc["loadAvg"]`. -/
def reDescLoadAvg : Desc := colPromDesc "route_engine" "load_average" ["slot", "timespan"]

/-- Desc `reDesc["uptime"]`. -/
def reDescUptime : Desc := colPromDesc "route_engine" "uptime_seconds" ["slot"]

/-- Desc `reDesc["masterState"]`. -/
def reDescMasterState : Desc := colPromDesc "route_engine" "mastership_state" ["slot"]

/-- Desc `reDesc["masterPrio"]`. -/
def reDescMasterPrio : Desc := colPromDesc "route_engine" "mastership_priority" ["slot"]

/-- Decoded `route-engine` element (`reEntry`, route_engine.go); the
`celsius`/`seconds` attribute wrappers are flattened into the field name. -/
structure reEntry where
  Slot : String
  MastershipState : String
  MastershipPriority : String
  Status : String
  TemperatureTemp : String
  CPUTemperatureTemp : String
  MemoryDRAMSize : String
  MemoryInstalledSize : String
  MemoryBufferUtilization : String
  MemorySystemTotal : String
  MemorySystemTotalUsed : String
  CPUUser : String
  CPUBackground : String
  CPUSystem : String
  CPUInterrupt : String
  CPUIdle : String
  CPUUser1 : String
  CPUBackground1 : String
  CPUSystem1 : String
  CPUInterrupt1 : String
  CPUIdle1 : String
  CPUUser2 : String
  CPUBackground2 : String
  CPUSystem2 : String
  CPUInterrupt2 : String
  CPUIdle2 : String
  CPUUser3 : String
  CPUBackground3 : String
  CPUSystem3 : String
  CPUInterrupt3 : String
  CPUIdle3 : String
  UpTimeSeconds : String
  LoadAverageOne : String
  LoadAverageFive : String
  LoadAverageFifteen : String

/-- One iteration of the `REEntry` loop of `processRENetconfReply`
(route_engine.go lines 103-170): status/mastership are compared lowercased;
the mastership-priority gauge is computed from the `MastershipState` field
via a substring test (the decoded `MastershipPriority` field is not
consulted). -/
def processREEntry (reData : reEntry) : List Event :=
  let labels := if reData.Slot ≠ "" then [reData.Slot] else ["singleRE"]
  let state : ℚ := if toLower reData.Status = "ok" then 1.0 else 0.0
  let mState : ℚ := if toLower reData.MastershipState = "master" then 1.0 else 0.0
  let mPri : ℚ := if strContains (toLower reData.MastershipState) "master" then 1.0 else 0.0
  [Event.sample ⟨reDescState, MetricKind.gauge, state, labels⟩] ++
  newGauge reDescTemp reData.TemperatureTemp labels ++
  newGauge reDescCpuTemp reData.CPUTemperatureTemp labels ++
  newGauge reDescUptime reData.UpTimeSeconds labels ++
  newGaugeMB reDescMemTotal reData.MemorySystemTotal labels ++
  newGaugeMB reDescMemUsed reData.MemorySystemTotalUsed labels ++
  newGauge reDescMemBuf reData.MemoryBufferUtilization labels ++
  newGaugeMB reDescMemDRAM reData.MemoryDRAMSize labels ++
  newGaugeMB reDescMemInstalled reData.MemoryInstalledSize labels ++
  newGauge reDescCpuUser reData.CPUUser (labels ++ ["5s"]) ++
  newGauge reDescCpuBackground reData.CPUBackground (labels ++ ["5s"]) ++
  newGauge reDescCpuSystem reData.CPUSystem (labels ++ ["5s"]) ++
  newGauge reDescCpuInterrupt reData.CPUInterrupt (labels ++ ["5s"]) ++
  newGauge reDescCpuIdle reData.CPUIdle (labels ++ ["5s"]) ++
  newGauge reDescCpuUser reData.CPUUser1 (labels ++ ["1m"]) ++
  newGauge reDescCpuBackground reData.CPUBackground1 (labels ++ ["1m"]) ++
  newGauge reDescCpuSystem reData.CPUSystem1 (labels ++ ["1m"]) ++
  newGauge reDescCpuInterrupt reData.CPUInterrupt1 (labels ++ ["1m"]) ++
  newGauge reDescCpuIdle reData.CPUIdle1 (labels ++ ["1m"]) ++
  newGauge reDescLoadAvg reData.LoadAverageOne (labels ++ ["1m"]) ++
  newGauge reDescCpuUser reData.CPUUser2 (labels ++ ["5m"]) ++
  newGauge reDescCpuBackground reData.CPUBackground2 (labels ++ ["5m"]) ++
  newGauge reDescCpuSystem reData.CPUSystem2 (labels ++ ["5m"]) ++
  newGauge reDescCpuInterrupt reData.CPUInterrupt2 (labels ++ ["5m"]) ++
  newGauge reDescCpuIdle reData.CPUIdle2 (labels ++ ["5m"]) ++
  newGauge reDescLoadAvg reData.LoadAverageFive (labels ++ ["5m"]) ++
  newGauge reDescCpuUser reData.CPUUser3 (labels ++ ["15m"]) ++
  newGauge reDescCpuBackground reData.CPUBackground3 (labels ++ ["15m"]) ++
  newGauge reDescCpuSystem reData.CPUSystem3 (labels ++ ["15m"]) ++
  newGauge reDescCpuInterrupt reData.CPUInterrupt3 (labels ++ ["15m"]) ++
  newGauge reDescCpuIdle reData.CPUIdle3 (labels ++ ["15m"]) ++
  newGauge reDescLoadAvg reData.LoadAverageFifteen (labels ++ ["15m"]) ++
  [Event.sample ⟨reDescMasterState, MetricKind.gauge, mState, labels⟩] ++
  [Event.sample ⟨reDescMasterPrio, MetricKind.gauge, mPri, labels⟩]

/-- Models `processRENetconfReply` (route_engine.go lines 96-172) applied
to the already-decoded list of `route-engine` elements. -/
def processRENetconfReply (entries : List reEntry) : List Event :=
  (entries.map processREEntry).flatten

/-! ### Go map model

Go `map[string]string` values of the BGP collector are modelled as
association lists with distinct keys: `mapInsert` overwrites an existing
binding in place, `mapLookup` models `m[k]` (`none` encodes absence, Go's
comma-ok `false`), and map iteration visits the keys in list order (Go's
iteration order is unspecified; every proved property is order independent).
-/

/-- Insert `k ↦ v`, overwriting an existing binding for `k`. -/
def mapInsert (m : List (String × String)) (k v : String) : List (String × String) :=
  if m.any (fun p => p.1 = k) then
    m.map (fun p => if p.1 = k then (k, v) else p)
  else m ++ [(k, v)]

/-- Lookup of `k` (Go `v, ok := m[k]`). -/
def mapLookup (m : List (String × String)) (k : String) : Option String :=
  (m.find? (fun p => p.1 = k)).map Prod.snd

/-! ### BGP collector (bgp.go) -/

/-- Desc `bgpDesc["GroupCount"]` (bgp.go line 23). -/
def bgpDescGroupCount : Desc := colPromDesc "bgp" "groups" ["routing_instance"]

/-- Desc `bgpDesc["PeerCount"]`. -/
def bgpDescPeerCount : Desc := colPromDesc "bgp" "peers" ["routing_instance"]

/-- Desc `bgpDesc["DownPeerCount"]`. -/
def bgpDescDownPeerCount : Desc := colPromDesc "bgp" "down_peers" ["routing_instance"]

/-- The label schema `bgpPeerRIBLabels = append(bgpPeerLabels, bgpRIBLabels...)`
(bgp.go line 20). -/
def bgpPeerRIBLabels : List String := ["peer", "interface", "peer_address_family", "routing_instance"]

/-- Desc `bgpDesc["PeerInputMessages"]`. -/
def bgpDescPeerInputMessages : Desc := colPromDesc "bgp" "peer_input_messages" bgpPeerRIBLabels

/-- Desc `bgpDesc["PeerOutputMessages"]`. -/
def bgpDescPeerOutputMessages : Desc := colPromDesc "bgp" "peer_output_messages" bgpPeerRIBLabels

/-- Desc `bgpDesc["PeerRouteQueueCount"]`. -/
def bgpDescPeerRouteQueueCount : Desc := colPromDesc "bgp" "peer_route_queue" bgpPeerRIBLabels

/-- Desc `bgpDesc["PeerFlapCount"]`. -/
def bgpDescPeerFlapCount : Desc := colPromDesc "bgp" "peer_flaps" bgpPeerRIBLabels

/-- Desc `bgpDesc["PeerElapsedTime"]`. -/
def bgpDescPeerElapsedTime : Desc := colPromDesc "bgp" "peer_elapsed_time_seconds" bgpPeerRIBLabels

/-- Desc `bgpDesc["PeerPeerState"]`. -/
def bgpDescPeerPeerState : Desc := colPromDesc "bgp" "peer_up" bgpPeerRIBLabels

/-- Desc `bgpDesc["PeerRIBActivePrefixCount"]`. -/
def bgpDescPeerRIBActivePrefixCount : Desc := colPromDesc "bgp" "peer_rib_active_prefixes" bgpPeerRIBLabels

/-- Desc `bgpDesc["PeerRIBReceivedPrefixCount"]`. -/
def bgpDescPeerRIBReceivedPrefixCount : Desc := colPromDesc "bgp" "peer_rib_received_prefixes" bgpPeerRIBLabels

/-- Desc `bgpDesc["PeerRIBAcceptedPrefixCount"]`. -/
def bgpDescPeerRIBAcceptedPrefixCount : Desc := colPromDesc "bgp" "peer_rib_accepted_prefixes" bgpPeerRIBLabels

/-- Desc `bgpDesc["PeerRIBSuppressedPrefixCount"]`. -/
def bgpDescPeerRIBSuppressedPrefixCount : Desc := colPromDesc "bgp" "peer_rib_suppressed_prefixes" bgpPeerRIBLabels

/-- Desc `bgpDesc["RIBTotalPrefixCount"]`. -/
def bgpDescRIBTotalPrefixCount : Desc := colPromDesc "bgp" "rib_total_prefixes" ["routing_instance"]

/-- Desc `bgpDesc["RIBHistoryPrefixCount"]`. -/
def bgpDescRIBHistoryPrefixCount : Desc := colPromDesc "bgp" "rib_history_prefixes" ["routing_instance"]

/-- Desc `bgpDesc["RIBDampedPrefixCount"]`. -/
def bgpDescRIBDampedPrefixCount : Desc := colPromDesc "bgp" "rib_damped_prefixes" ["routing_instance"]

/-- Desc `bgpDesc["RIBTotalExternalPrefixCount"]`. -/
def bgpDescRIBTotalExternalPrefixCount : Desc := colPromDesc "bgp" "rib_total_external_prefixes" ["routing_instance"]

/-- Desc `bgpDesc["RIBActiveExternalPrefixCount"]`. -/
def bgpDescRIBActiveExternalPrefixCount : Desc := colPromDesc "bgp" "rib_active_external_prefixes" ["routing_instance"]

/-- Desc `bgpDesc["RIBAcceptedExternalPrefixCount"]`. -/
def bgpDescRIBAcceptedExternalPrefixCount : Desc := colPromDesc "bgp" "rib_accepted_external_prefixes" ["routing_instance"]

/-- Desc `bgpDesc["RIBSuppressedExternalPrefixCount"]`. -/
def bgpDescRIBSuppressedExternalPrefixCount : Desc := colPromDesc "bgp" "rib_suppressed_external_prefixes" ["routing_instance"]

/-- Desc `bgpDesc["RIBTotalInternalPrefixCount"]`. -/
def bgpDescRIBTotalInternalPrefixCount : Desc := colPromDesc "bgp" "rib_total_internal_prefixes" ["routing_instance"]

/-- Desc `bgpDesc["RIBActiveInternalPrefixCount"]`. -/
def bgpDescRIBActiveInternalPrefixCount : Desc := colPromDesc "bgp" "rib_active_internal_prefixes" ["routing_instance"]

/-- Desc `bgpDesc["RIBAcceptedInternalPrefixCount"]`. -/
def bgpDescRIBAcceptedInternalPrefixCount : Desc := colPromDesc "bgp" "rib_accepted_internal_prefixes" ["routing_instance"]

/-- Desc `bgpDesc["RIBSuppressedInternalPrefixCount"]`. -/
def bgpDescRIBSuppressedInternalPrefixCount : Desc := colPromDesc "bgp" "rib_suppressed_internal_prefixes" ["routing_instance"]

/-- Desc `bgpDesc["RIBPendingPrefixCount"]`. -/
def bgpDescRIBPendingPrefixCount : Desc := colPromDesc "bgp" "rib_pending_prefixes" ["routing_instance"]

/-- Models `strings.Split(s, "+")[0]` as used on peer addresses: the part of
the string before the first `+` (the whole string when there is none). -/
def stripPort (s : String) : String :=
  ⟨s.data.takeWhile (fun c => c ≠ '+')⟩

/-- Decoded `bgp-peer-header` element (`bgpPeerHeader`, bgp.go). -/
structure bgpPeerHeader where
  PeerAddress : String
  PeerAs : String
  LocalAddress : String
  LocalAs : String

/-- Decoded `bgp-rib` element of a neighbor peer (`bgpPeerRIB`, bgp.go). -/
structure bgpPeerRIB where
  Name : String
  ActivePrefixCount : String
  ReceivedPrefixCount : String
  AcceptedPrefixCount : String
  SuppressedPrefixCount : String
  AdvertisedPrefixCount : String

/-- Decoded `bgp-peer` element of the neighbor reply (`bgpNeighborPeer`,
bgp.go); the `bgpText`/`bgpSeconds` wrappers are flattened. -/
structure bgpNeighborPeer where
  PeerAddress : String
  BGPPeerHeader : bgpPeerHeader
  LocalInterfaceName : String
  InputMessages : String
  OutputMessages : String
  RouteQueueCount : String
  FlapCount : String
  Description : String
  ElapsedTimeSeconds : String
  PeerState : String
  BGPRIB : bgpPeerRIB
  PeerCfgRti : String
  NlriTypePeer : String

/-- Models `getBgpPeerInterface` (bgp.go lines 173-191): build the
peer-address → local-interface-name map from the neighbor reply, checking
the direct `<peer-address>` field first and the
`<bgp-peer-header><peer-address>` field second, stripping everything from
the first `+` off the key. -/
def getBgpPeerInterface (peers : List bgpNeighborPeer) : List (String × String) :=
  peers.foldl (fun peerToInterface peerData =>
    if peerData.PeerAddress ≠ "" then
      mapInsert peerToInterface (stripPort peerData.PeerAddress) peerData.LocalInterfaceName
    else if peerData.BGPPeerHeader.PeerAddress ≠ "" then
      mapInsert peerToInterface (stripPort peerData.BGPPeerHeader.PeerAddress) peerData.LocalInterfaceName
    else peerToInterface) []

/-- The peer-address resolution of the peer loop of `processBGPNetconfReply`
(bgp.go lines 290-301): direct field when non-empty, else the header field,
else empty; in the non-empty cases everything from the first `+` is cut. -/
def resolvePeerAddress (peerData : bgpNeighborPeer) : String :=
  if peerData.PeerAddress ≠ "" then stripPort peerData.PeerAddress
  else if peerData.BGPPeerHeader.PeerAddress ≠ "" then stripPort peerData.BGPPeerHeader.PeerAddress
  else ""

/-- One iteration of the peer loop of `processBGPNetconfReply` (bgp.go lines
288-344), without the peer-type aggregation (bgp.go lines 308-320, 326-330;
it feeds only the `PeerTypesUp` metric, which no claim mentions). -/
def bgpPeerEvents (bgpPeerInterfaces : List (String × String))
    (peerData : bgpNeighborPeer) : List Event :=
  let peerAddress := resolvePeerAddress peerData
  let peerInterfaceLocal := (mapLookup bgpPeerInterfaces peerAddress).getD ""
  let peerLabels := [trimSpace peerAddress, trimSpace peerInterfaceLocal,
    trimSpace peerData.NlriTypePeer]
  let peerRIBLabels := peerLabels ++ [peerData.PeerCfgRti]
  (if toLower peerData.PeerState = "established" then
    [Event.sample ⟨bgpDescPeerPeerState, MetricKind.gauge, 1.0, peerRIBLabels⟩]
  else
    [Event.sample ⟨bgpDescPeerPeerState, MetricKind.gauge, 0.0, peerRIBLabels⟩]) ++
  newCounter bgpDescPeerInputMessages peerData.InputMessages peerRIBLabels ++
  newCounter bgpDescPeerOutputMessages peerData.OutputMessages peerRIBLabels ++
  newGauge bgpDescPeerRouteQueueCount peerData.RouteQueueCount peerRIBLabels ++
  newCounter bgpDescPeerFlapCount peerData.FlapCount peerRIBLabels ++
  newGauge bgpDescPeerElapsedTime peerData.ElapsedTimeSeconds peerRIBLabels ++
  newGauge bgpDescPeerRIBActivePrefixCount peerData.BGPRIB.ActivePrefixCount peerRIBLabels ++
  newGauge bgpDescPeerRIBReceivedPrefixCount peerData.BGPRIB.ReceivedPrefixCount peerRIBLabels ++
  newGauge bgpDescPeerRIBAcceptedPrefixCount peerData.BGPRIB.AcceptedPrefixCount peerRIBLabels ++
  newGauge bgpDescPeerRIBSuppressedPrefixCount peerData.BGPRIB.SuppressedPrefixCount peerRIBLabels

/-- Decoded `bgp-rib` element of a per-instance summary reply
(`bgpSummaryInstanceRib`, bgp.go). -/
structure bgpSummaryInstanceRib where
  Name : String
  TotalPrefixCount : String
  HistoryPrefixCount : String
  DampedPrefixCount : String
  TotalExternalPrefixCount : String
  ActiveExternalPrefixCount : String
  AcceptedExternalPrefixCount : String
  SuppressedExternalPrefixCount : String
  TotalInternalPrefixCount : String
  ActiveInternalPrefixCount : String
  AcceptedInternalPrefixCount : String
  SuppressedInternalPrefixCount : String
  PendingPrefixCount : String

/-- Decoded `bgp-information` element of a per-instance summary reply
(`bgpSummaryInstance`, bgp.go), restricted to the fields the pipeline reads. -/
structure bgpSummaryInstance where
  GroupCount : String
  PeerCount : String
  DownPeerCount : String
  BgpRib : List bgpSummaryInstanceRib

/-- The twelve RIB-total gauges emitted for one matching `ribData`
(bgp.go lines 267-278). -/
def ribTotalEvents (ribData : bgpSummaryInstanceRib) (ribLabels : List String) : List Event :=
  newGauge bgpDescRIBTotalPrefixCount ribData.TotalPrefixCount ribLabels ++
  newGauge bgpDescRIBHistoryPrefixCount ribData.HistoryPrefixCount ribLabels ++
  newGauge bgpDescRIBDampedPrefixCount ribData.DampedPrefixCount ribLabels ++
  newGauge bgpDescRIBTotalExternalPrefixCount ribData.TotalExternalPrefixCount ribLabels ++
  newGauge bgpDescRIBActiveExternalPrefixCount ribData.ActiveExternalPrefixCount ribLabels ++
  newGauge bgpDescRIBAcceptedExternalPrefixCount ribData.AcceptedExternalPrefixCount ribLabels ++
  newGauge bgpDescRIBSuppressedExternalPrefixCount ribData.SuppressedExternalPrefixCount ribLabels ++
  newGauge bgpDescRIBTotalInternalPrefixCount ribData.TotalInternalPrefixCount ribLabels ++
  newGauge bgpDescRIBActiveInternalPrefixCount ribData.ActiveInternalPrefixCount ribLabels ++
  newGauge bgpDescRIBAcceptedInternalPrefixCount ribData.AcceptedInternalPrefixCount ribLabels ++
  newGauge bgpDescRIBSuppressedInternalPrefixCount ribData.SuppressedInternalPrefixCount ribLabels ++
  newGauge bgpDescRIBPendingPrefixCount ribData.PendingPrefixCount ribLabels

/-- State threaded through the routing-instance loops of
`processBGPNetconfReply`: the `routeInstanceCheck` already-emitted set and
the events sent so far. -/
structure BGPInstanceState where
  routeInstanceCheck : List String
  events : List Event

/-- The body of the outer routing-instance loop of `processBGPNetconfReply`
(bgp.go lines 252-284) for one `routeInstanceBGP` entry of
`replyBgpSummaryInstance`: emit the group/peer/down-peer gauges, then walk
the `routeInstances` correlation map and the reply's RIBs, emitting the
RIB-total block only if `routeInstanceBGP` is not yet in
`routeInstanceCheck` (and recording it there). -/
def bgpInstanceStep (routeInstances : List (String × String))
    (st : BGPInstanceState) (entry : String × bgpSummaryInstance) : BGPInstanceState :=
  let routeInstanceBGP := entry.1
  let netconfReplyInstance := entry.2
  let ribLabels := [routeInstanceBGP]
  let st1 : BGPInstanceState :=
    { st with events := st.events ++
        newGauge bgpDescGroupCount netconfReplyInstance.GroupCount ribLabels ++
        newGauge bgpDescPeerCount netconfReplyInstance.PeerCount ribLabels ++
        newGauge bgpDescDownPeerCount netconfReplyInstance.DownPeerCount ribLabels }
  routeInstances.foldl (fun st2 routeInstance =>
    if routeInstanceBGP = routeInstance.2 then
      netconfReplyInstance.BgpRib.foldl (fun st3 ribData =>
        if ribData.Name = routeInstance.1 then
          if st3.routeInstanceCheck.contains routeInstanceBGP then st3
          else
            { routeInstanceCheck := routeInstanceBGP :: st3.routeInstanceCheck,
              events := st3.events ++ ribTotalEvents ribData ribLabels }
        else st3) st2
    else st2) st1

/-- The routing-instance section of `processBGPNetconfReply` (bgp.go lines
241, 252-284): fold `bgpInstanceStep` over the per-instance summary replies,
starting from an empty `routeInstanceCheck` set. -/
def processBGPInstanceEvents (routeInstances : List (String × String))
    (replyBgpSummaryInstance : List (String × bgpSummaryInstance)) : List Event :=
  (replyBgpSummaryInstance.foldl (bgpInstanceStep routeInstances)
    ⟨[], []⟩).events

/-- The Descs of the twelve per-routing-instance RIB-total gauges emitted by
the guarded block of `processBGPNetconfReply` (bgp.go lines 267-278):
`rib_total_prefixes` and its companion `rib_*` gauges. -/
def ribTotalDescList : List Desc :=
  [bgpDescRIBTotalPrefixCount, bgpDescRIBHistoryPrefixCount, bgpDescRIBDampedPrefixCount,
   bgpDescRIBTotalExternalPrefixCount, bgpDescRIBActiveExternalPrefixCount,
   bgpDescRIBAcceptedExternalPrefixCount, bgpDescRIBSuppressedExternalPrefixCount,
   bgpDescRIBTotalInternalPrefixCount, bgpDescRIBActiveInternalPrefixCount,
   bgpDescRIBAcceptedInternalPrefixCount, bgpDescRIBSuppressedInternalPrefixCount,
   bgpDescRIBPendingPrefixCount]

/-- Number of samples carrying the Desc `d` that are labeled with exactly
the routing instance `x` among the events. -/
def ribDescCount (d : Desc) (x : String) (es : List Event) : ℕ :=
  (samplesOf es).countP
    (fun s => decide (s.desc = d ∧ s.labelValues = [x]))

/-- Invariant of the routing-instance loops of `processBGPNetconfReply`,
stated for one RIB-total gauge Desc `d`: every routing instance carries at
most one sample of `d` so far, and any instance that already has one is
recorded in the `routeInstanceCheck` set. -/
def RibInv (d : Desc) (st : BGPInstanceState) : Prop :=
  ∀ y : String, ribDescCount d y st.events ≤ 1 ∧
    (1 ≤ ribDescCount d y st.events → y ∈ st.routeInstanceCheck)

/-- Decoded `instance-rib` element (`routeInstanceRib`, bgp.go), restricted
to the field the pipeline reads. -/
structure routeInstanceRib where
  IribName : String

/-- Decoded `instance-core` element (`routeInstanceCore`, bgp.go). -/
structure routeInstanceCore where
  InstanceName : String
  InstanceType : String
  InstanceRib : List routeInstanceRib

/-- Models `getInstanceNameToRibName` (bgp.go lines 157-171): returns the
irib-name → instance-name map and the instance-name → instance-name map
built from the decoded `get-instance-information` reply. The Go loop
updates the two maps independently within one pass, modelled as one fold
per map. -/
def getInstanceNameToRibName (cores : List routeInstanceCore) :
    List (String × String) × List (String × String) :=
  (cores.foldl (fun instanceToIribName instanceCore =>
      instanceCore.InstanceRib.foldl
        (fun m iriB => mapInsert m iriB.IribName instanceCore.InstanceName)
        instanceToIribName) [],
   cores.foldl (fun routeInstanceNames instanceCore =>
      mapInsert routeInstanceNames instanceCore.InstanceName instanceCore.InstanceName) [])

/-! ### Network traces of `Get` (`netconf.DialSSH` / `Session.Exec`) -/

/-- One network interaction of a collector: a NETCONF-over-SSH session dial,
or the execution of one RPC on the session. -/
inductive NetEvent where
  | dialSSH
  | exec (rpc : String)
deriving DecidableEq

/-- Number of NETCONF sessions opened (dial events) in a trace. -/
def sessionOpens (tr : List NetEvent) : ℕ :=
  tr.countP (fun e => match e with | .dialSSH => true | _ => false)

/-- The RPC string of the additional per-instance BGP summary call
(bgp.go line 124). -/
def instanceRPC (routeInstance : String) : String :=
  "<get-bgp-summary-information><instance>" ++ routeInstance ++
    "</instance></get-bgp-summary-information>"

/-- The reserved-instance filter of `BGPCollector.Get` (bgp.go line 123):
a routing instance gets its own summary RPC exactly when its name contains
none of `__master`, `__juniper` and `mgmt_junos`. -/
def nonReservedInstance (routeInstance : String) : Bool :=
  !(strContains routeInstance "__master") && !(strContains routeInstance "__juniper")
    && !(strContains routeInstance "mgmt_junos")

/-- The per-instance RPC loop of `BGPCollector.Get` (bgp.go lines 121-133):
one additional `get-bgp-summary-information` exec for every discovered
routing-instance name that passes `nonReservedInstance`; reserved names are
skipped. -/
def bgpInstanceRPCTrace (routeInstanceNames : List String) : List NetEvent :=
  routeInstanceNames.foldl (fun tr routeInstance =>
    if nonReservedInstance routeInstance then
      tr ++ [NetEvent.exec (instanceRPC routeInstance)]
    else tr) []

/-- Network trace of `BGPCollector.Get` (bgp.go lines 74-155) on a device
whose dial and RPCs all succeed and whose `get-instance-information` reply
decodes to `cores`: its own dial, the three fixed RPCs, then the
per-instance loop over the keys of the discovered instance-name map. -/
def BGPCollectorGetTrace (cores : List routeInstanceCore) : List NetEvent :=
  [NetEvent.dialSSH,
   NetEvent.exec "<get-bgp-summary-information/>",
   NetEvent.exec "<get-bgp-neighbor-information/>",
   NetEvent.exec "<get-instance-information/>"] ++
  bgpInstanceRPCTrace (((getInstanceNameToRibName cores).2).map Prod.fst)

/-- Abstract FPC device: whether the dial succeeds, and the decoded
`get-fpc-information` reply (`none` models an RPC execution failure). -/
structure FpcDevice where
  dialOk : Bool
  fpcReply : Option (List fpcItem)

/-- Result of one collector `Get` call: its network trace, the error list
and cumulative error counter returned to the scheduler, and the samples it
sent to the channel. -/
structure GetResult where
  netTrace : List NetEvent
  errors : List String
  totalErrors : ℚ
  events : List Event

/-- Models `FPCCollector.Get` (fpc.go lines 46-69): dial its own session
(on failure: record the error, bump the counter, return), execute the one
RPC (on failure: likewise), then process the reply. `totalFPCErrors` is the
process-wide cumulative counter before the call. -/
def FPCCollectorGet (dev : FpcDevice) (totalFPCErrors : ℚ) : GetResult :=
  if ¬ dev.dialOk then
    { netTrace := [NetEvent.dialSSH],
      errors := ["could not connect"],
      totalErrors := totalFPCErrors + 1,
      events := [] }
  else
    match dev.fpcReply with
    | none =>
      { netTrace := [NetEvent.dialSSH, NetEvent.exec "<get-fpc-information/>"],
        errors := ["could not execute netconf RPC call"],
        totalErrors := totalFPCErrors + 1,
        events := [] }
    | some items =>
      { netTrace := [NetEvent.dialSSH, NetEvent.exec "<get-fpc-information/>"],
        errors := [],
        totalErrors := totalFPCErrors,
        events := processFPCNetconfReply items }

/-- The collectors embedded with a network-trace model. -/
inductive CollectorModel where
  | fpc (dev : FpcDevice)
  | bgp (cores : List routeInstanceCore)

/-- Network trace of one embedded collector's `Get`. -/
def collectorGetTrace : CollectorModel → List NetEvent
  | .fpc dev => (FPCCollectorGet dev 0).netTrace
  | .bgp cores => BGPCollectorGetTrace cores

/-- Network trace of `Exporter.Collect` (collector.go lines 63-73): Collect
itself only emits the scrape counter and runs every enabled collector's
`Get`; it performs no network interaction of its own, so the scrape's trace
is the collectors' traces combined (they run concurrently; dial counts are
independent of the interleaving, so the traces are concatenated). -/
def ExporterCollectTrace (collectors : List CollectorModel) : List NetEvent :=
  (collectors.map collectorGetTrace).flatten

/-! ### Interface collector (interface.go), description-key labels -/

/-- Desc `ifaceDesc["InterfaceDescription"]` (interface.go line 159),
registered only when description keys are configured, with label schema
`append([]string{"interface"}, ifaceDescrKeys...)`. -/
def ifaceDescriptionDesc (ifaceDescrKeys : List String) : Desc :=
  colPromDesc "interface" "description" ("interface" :: ifaceDescrKeys)

/-- The description-key emission of the physical-interface loop of
`processIfaceNetconfReply` (interface.go lines 266-276): starting from the
interface name, append per configured key the value found in the decoded
JSON description object (modelled as `allIfaceDescrKeys : String → Option
String`), or `""` when absent, then emit one constant counter sample. -/
def ifaceDescrEvents (ifaceDescrKeys : List String) (name : String)
    (allIfaceDescrKeys : String → Option String) : List Event :=
  if ifaceDescrKeys.length > 0 then
    let ifaceDescrLabels := ifaceDescrKeys.foldl (fun ls configuredKey =>
      match allIfaceDescrKeys configuredKey with
      | none => ls ++ [""]
      | some v => ls ++ [v]) [trimSpace name]
    newCounter (ifaceDescriptionDesc ifaceDescrKeys) "1" ifaceDescrLabels
  else []

/-! ## Helper lemmas -/

theorem samplesOf_append (a b : List Event) :
    samplesOf (a ++ b) = samplesOf a ++ samplesOf b := by
  simp [samplesOf]

theorem logCount_append (a b : List Event) :
    logCount (a ++ b) = logCount a + logCount b := by
  simp [logCount]

theorem descValues_append (d : Desc) (a b : List Event) :
    descValues d (a ++ b) = descValues d a ++ descValues d b := by
  simp [descValues]

theorem newGauge_of_empty (d : Desc) (l : List String) : newGauge d "" l = [] := rfl

theorem newCounter_of_empty (d : Desc) (l : List String) : newCounter d "" l = [] := rfl

theorem newGauge_of_fail (d : Desc) (m : String) (l : List String)
    (hm : m ≠ "") (hp : goParseFloat (trimSpace m) = none) :
    newGauge d m l = [Event.logError "could not convert metric to float64",
      Event.sample ⟨d, MetricKind.gauge, 0, l⟩] := by
  rw [newGauge, if_pos hm, hp]

theorem newCounter_of_fail (d : Desc) (m : String) (l : List String)
    (hm : m ≠ "") (hp : goParseFloat (trimSpace m) = none) :
    newCounter d m l = [Event.logError "could not convert metric to float64",
      Event.sample ⟨d, MetricKind.counter, 0, l⟩] := by
  rw [newCounter, if_pos hm, hp]

theorem newGauge_of_parse (d : Desc) (m : String) (l : List String) (v : ℚ)
    (hm : m ≠ "") (hp : goParseFloat (trimSpace m) = some v) :
    newGauge d m l = [Event.sample ⟨d, MetricKind.gauge, v, l⟩] := by
  rw [newGauge, if_pos hm, hp]

theorem newCounter_of_parse (d : Desc) (m : String) (l : List String) (v : ℚ)
    (hm : m ≠ "") (hp : goParseFloat (trimSpace m) = some v) :
    newCounter d m l = [Event.sample ⟨d, MetricKind.counter, v, l⟩] := by
  rw [newCounter, if_pos hm, hp]

theorem descValues_single (d : Desc) (k : MetricKind) (v : ℚ) (l : List String) :
    descValues d [Event.sample ⟨d, k, v, l⟩] = [v] := by
  simp [descValues]

/-! ## Claim C1 -/

/-- Claim C1, counterexample: the input string "abc" is non-empty and not
parseable as a float, yet `newGauge` emits one sample for it (with value 0)
rather than none. -/
theorem claim_C1_counterexample :
    "abc" ≠ "" ∧ goParseFloat (trimSpace "abc") = none ∧
    sampleCount (newGauge powerDescCapacityActual "abc" ["PEM 0"]) = 1 ∧
    logCount (newGauge powerDescCapacityActual "abc" ["PEM 0"]) = 1 := by
  exact ⟨by decide, rfl, by decide, by decide⟩

/-- Claim C1, amended: for the gauge/counter mappers, an empty field emits
nothing; a non-empty non-parseable field logs exactly one conversion error
and nevertheless emits exactly one sample, with value 0, for that field; a
parseable field emits exactly one sample with the parsed value and logs
nothing; each field's events are independent of the other fields, so
processing always continues. -/
theorem claim_C1_amended :
    ∀ (d : Desc) (m : String) (l : List String),
      (m = "" → newGauge d m l = [] ∧ newCounter d m l = []) ∧
      (m ≠ "" → goParseFloat (trimSpace m) = none →
        logCount (newGauge d m l) = 1 ∧ sampleCount (newGauge d m l) = 1 ∧
        descValues d (newGauge d m l) = [0] ∧
        logCount (newCounter d m l) = 1 ∧ sampleCount (newCounter d m l) = 1 ∧
        descValues d (newCounter d m l) = [0]) ∧
      (m ≠ "" → ∀ v, goParseFloat (trimSpace m) = some v →
        logCount (newGauge d m l) = 0 ∧ sampleCount (newGauge d m l) = 1 ∧
        descValues d (newGauge d m l) = [v]) := by
  intro d m l
  refine ⟨fun hm => ?_, fun hm hp => ?_, fun hm v hp => ?_⟩
  · subst hm; exact ⟨rfl, rfl⟩
  · rw [newGauge_of_fail d m l hm hp, newCounter_of_fail d m l hm hp]
    refine ⟨rfl, rfl, ?_, rfl, rfl, ?_⟩ <;> simp [descValues]
  · rw [newGauge_of_parse d m l v hm hp]
    refine ⟨rfl, rfl, ?_⟩
    simp [descValues]

/-- Claim C1, witness: the amended statement applied to the concrete
non-parseable field "n/a" and to the parseable field "42". -/
theorem claim_C1_witness :
    logCount (newGauge powerDescCapacityMax "n/a" ["PEM 1"]) = 1 ∧
    descValues powerDescCapacityMax (newGauge powerDescCapacityMax "n/a" ["PEM 1"]) = [0] ∧
    newGauge powerDescCapacityMax "" ["PEM 1"] = [] := by
  have h := claim_C1_amended powerDescCapacityMax "n/a" ["PEM 1"]
  have h0 := claim_C1_amended powerDescCapacityMax "" ["PEM 1"]
  exact ⟨(h.2.1 (by decide) rfl).1, (h.2.1 (by decide) rfl).2.2.1, (h0.1 rfl).1⟩

/-! ## Claim C5 -/

theorem isSpaceChar_eq_false_of_digit (c : Char) (h : isDigitChar c = true) :
    isSpaceChar c = false := by
  cases hsp : isSpaceChar c with
  | false => rfl
  | true =>
    simp only [isSpaceChar, Bool.or_eq_true, decide_eq_true_eq] at hsp
    rcases hsp with ((((rfl | rfl) | rfl) | rfl) | rfl) | rfl <;> exact absurd h (by decide)

theorem dropWhileSpace_of_digits (l : List Char) (hl : ∀ c ∈ l, isDigitChar c = true) :
    l.dropWhile isSpaceChar = l := by
  cases l with
  | nil => rfl
  | cons a l =>
    rw [List.dropWhile_cons]
    simp [isSpaceChar_eq_false_of_digit a (hl a (List.mem_cons_self a l))]

theorem trimSpace_of_digits (cs : List Char) (hd : ∀ c ∈ cs, isDigitChar c = true) :
    trimSpace ⟨cs⟩ = ⟨cs⟩ := by
  show (⟨((cs.dropWhile isSpaceChar).reverse.dropWhile isSpaceChar).reverse⟩ : String) = ⟨cs⟩
  rw [dropWhileSpace_of_digits cs hd,
    dropWhileSpace_of_digits cs.reverse (fun c hc => hd c (List.mem_reverse.mp hc)),
    List.reverse_reverse]

theorem goParseFloat_of_digits (cs : List Char) (hne : cs ≠ [])
    (hd : ∀ c ∈ cs, isDigitChar c = true) :
    goParseFloat ⟨cs⟩ = some ((digitsToNat cs : ℚ)) := by
  obtain ⟨c, cs', rfl⟩ := List.exists_cons_of_ne_nil hne
  have hc : isDigitChar c = true := hd c (List.mem_cons_self c cs')
  have hcp : (c == '+') = false := by
    simp only [beq_eq_false_iff_ne, ne_eq]
    rintro rfl; exact absurd hc (by decide)
  have hcm : (c == '-') = false := by
    simp only [beq_eq_false_iff_ne, ne_eq]
    rintro rfl; exact absurd hc (by decide)
  have htake : (c :: cs').takeWhile isDigitChar = c :: cs' :=
    List.takeWhile_eq_self_iff.mpr (by intro x hx; simpa using hd x hx)
  have hdrop : (c :: cs').dropWhile isDigitChar = [] :=
    List.dropWhile_eq_nil_iff.mpr (by intro x hx; simpa using hd x hx)
  simp only [goParseFloat, List.headD_cons, hcp, hcm, Bool.or_self, Bool.false_or,
    if_false, Bool.false_eq_true, htake, hdrop, List.headD_nil]
  norm_num [digitsToNat]

/-- Claim C5, counterexample: the MB mapper emits for the field "4 K" one
gauge sample with value 4000000 (digit run 4 times the fixed multiplier
1000000), which is neither a 4000-style nor a 4096-style scaling of 4. -/
theorem claim_C5_counterexample :
    descValues reDescMemTotal (newGaugeMB reDescMemTotal "4 K" ["0"]) = [4000000] ∧
    (4000000 : ℚ) ≠ 4000 ∧ (4000000 : ℚ) ≠ 4096 := by
  refine ⟨?_, by norm_num, by norm_num⟩
  have h : (4000000 : ℚ) = mkRat 4 1 * 1000000 := by
    rw [Rat.mkRat_eq_div]; norm_num
  rw [h]; exact rfl

/-- Claim C5, amended: for every non-empty size string containing a digit
run, the MB mapper emits exactly one gauge sample whose value is the first
run of digits, parsed as a number, times the fixed multiplier 1000000 (so a
"4 K" memory field yields 4000000, not a 4000- or 4096-scaled value). -/
theorem claim_C5_amended :
    ∀ (d : Desc) (s : String) (l : List String),
      s ≠ "" → findDigitRun s ≠ "" →
      newGaugeMB d s l =
        [Event.sample ⟨d, MetricKind.gauge,
          (digitsToNat (findDigitRun s).data : ℚ) * 1000000, l⟩] := by
  intro d s l hs hr
  have hd : ∀ c ∈ (findDigitRun s).data, isDigitChar c = true := by
    intro c hc
    simpa using List.mem_takeWhile_imp hc
  have hne : (findDigitRun s).data ≠ [] := by
    intro h
    apply hr
    show (⟨(findDigitRun s).data⟩ : String) = ⟨[]⟩
    rw [h]
  rw [newGaugeMB, if_pos hs]
  have ht : trimSpace (findDigitRun s) = findDigitRun s :=
    trimSpace_of_digits (findDigitRun s).data hd
  have hp : goParseFloat (findDigitRun s) = some ((digitsToNat (findDigitRun s).data : ℚ)) :=
    goParseFloat_of_digits (findDigitRun s).data hne hd
  rw [ht, hp]

/-- Claim C5, witness: the amended statement applied to the field "4 K". -/
theorem claim_C5_witness :
    newGaugeMB reDescMemUsed "4 K" ["1"] =
      [Event.sample ⟨reDescMemUsed, MetricKind.gauge,
        (digitsToNat (findDigitRun "4 K").data : ℚ) * 1000000, ["1"]⟩] :=
  claim_C5_amended reDescMemUsed "4 K" ["1"] (by decide) (by decide)

/-! ## Claim C3 -/

theorem descValues_newGauge_ne (d d' : Desc) (m : String) (l : List String) (h : ¬ d' = d) :
    descValues d (newGauge d' m l) = [] := by
  unfold newGauge
  split
  · split <;> simp [descValues, h]
  · rfl

theorem descValues_newGaugeMB_ne (d d' : Desc) (m : String) (l : List String) (h : ¬ d' = d) :
    descValues d (newGaugeMB d' m l) = [] := by
  unfold newGaugeMB
  split
  · split <;> simp [descValues, h]
  · rfl

theorem descValues_newCounter_ne (d d' : Desc) (m : String) (l : List String) (h : ¬ d' = d) :
    descValues d (newCounter d' m l) = [] := by
  unfold newCounter
  split
  · split <;> simp [descValues, h]
  · rfl

theorem descValues_nil (d : Desc) : descValues d [] = [] := rfl

theorem descValues_cons_sample_self (d : Desc) (k : MetricKind) (v : ℚ) (l : List String)
    (es : List Event) :
    descValues d (Event.sample ⟨d, k, v, l⟩ :: es) = v :: descValues d es := by
  simp [descValues]

theorem descValues_cons_sample_ne (d : Desc) (s : Sample) (es : List Event) (h : ¬ s.desc = d) :
    descValues d (Event.sample s :: es) = descValues d es := by
  simp [descValues, h]

theorem descValues_cons_log (d : Desc) (msg : String) (es : List Event) :
    descValues d (Event.logError msg :: es) = descValues d es := by
  simp [descValues]

/-- Claim C3, counterexample: the power module state comparison is the Go
`==`, so the state "ONLINE", although case-insensitively equal to the
healthy value "Online", is mapped to 0.0 and not 1.0; and the FPC state
metric emits the third value 3.0 for an "Empty" slot. -/
theorem claim_C3_counterexample :
    descValues powerDescState (processPowerItem
      ⟨"PEM 0", "ONLINE", ⟨"", ""⟩, ⟨"", "", ""⟩, ⟨"", "", "", "", ""⟩⟩) = [0.0] ∧
    toLower "ONLINE" = toLower "Online" ∧
    descValues fpcDescState (processFPCItem
      ⟨"0", "Empty", 0, 0, 0, 0, 0, 0, 0, 0, 0⟩) = [3.0] ∧
    (3.0 : ℚ) ≠ 1.0 ∧ (3.0 : ℚ) ≠ 0.0 :=
  ⟨rfl, rfl, rfl, by norm_num, by norm_num⟩

/-- Claim C3, amended: each state-like text field is mapped by string match
against one expected healthy value, but the comparison is case sensitive
for the power module state ("Online") and the AC input state ("OK"), and
case insensitive (after lowercasing) for the route-engine status ("ok"),
the route-engine mastership state ("master") and the BGP peer state
("established"); these five metrics are two-valued 1.0/0.0, while the FPC
state metric is multi-valued: 0.0 for "offline", 1.0 for "online" and 3.0
for everything else (including "empty"), all case insensitive. -/
theorem claim_C3_amended :
    (∀ pd : powerItem,
      descValues powerDescState (processPowerItem pd) =
        [if pd.State = "Online" then 1.0 else 0.0] ∧
      descValues powerDescACInputState (processPowerItem pd) =
        [if pd.AcInputDetail.AcInput = "OK" then 1.0 else 0.0]) ∧
    (∀ re : reEntry,
      descValues reDescState (processREEntry re) =
        [if toLower re.Status = "ok" then 1.0 else 0.0] ∧
      descValues reDescMasterState (processREEntry re) =
        [if toLower re.MastershipState = "master" then 1.0 else 0.0]) ∧
    (∀ (m : List (String × String)) (pd : bgpNeighborPeer),
      descValues bgpDescPeerPeerState (bgpPeerEvents m pd) =
        [if toLower pd.PeerState = "established" then 1.0 else 0.0]) ∧
    (∀ fi : fpcItem,
      descValues fpcDescState (processFPCItem fi) =
        [if toLower fi.State = "offline" then 0.0
         else if toLower fi.State = "online" then 1.0 else 3.0]) := by
  refine ⟨fun pd => ⟨?_, ?_⟩, fun re => ⟨?_, ?_⟩, fun m pd => ?_, fun fi => ?_⟩
  · simp [processPowerItem, descValues_append, descValues_newGauge_ne, descValues_nil,
      descValues_cons_sample_self, descValues_cons_sample_ne,
      powerDescState, powerDescCapacityActual, powerDescCapacityMax,
      powerDescACInputState, powerDescACExpectedFeeds, powerDescACConnectedFeeds,
      powerDescDCOutputPower, powerDescDCOutputCurrent, powerDescDCOutputVoltage,
      powerDescDCOutputLoad, colPromDesc]
  · simp [processPowerItem, descValues_append, descValues_newGauge_ne, descValues_nil,
      descValues_cons_sample_self, descValues_cons_sample_ne,
      powerDescState, powerDescCapacityActual, powerDescCapacityMax,
      powerDescACInputState, powerDescACExpectedFeeds, powerDescACConnectedFeeds,
      powerDescDCOutputPower, powerDescDCOutputCurrent, powerDescDCOutputVoltage,
      powerDescDCOutputLoad, colPromDesc]
  · simp [processREEntry, descValues_append, descValues_newGauge_ne,
      descValues_newGaugeMB_ne, descValues_nil,
      descValues_cons_sample_self, descValues_cons_sample_ne,
      reDescState, reDescTemp, reDescCpuTemp, reDescUptime, reDescMemTotal, reDescMemUsed,
      reDescMemBuf, reDescMemDRAM, reDescMemInstalled, reDescCpuUser, reDescCpuBackground,
      reDescCpuSystem, reDescCpuInterrupt, reDescCpuIdle, reDescLoadAvg,
      reDescMasterState, reDescMasterPrio, colPromDesc]
  · simp [processREEntry, descValues_append, descValues_newGauge_ne,
      descValues_newGaugeMB_ne, descValues_nil,
      descValues_cons_sample_self, descValues_cons_sample_ne,
      reDescState, reDescTemp, reDescCpuTemp, reDescUptime, reDescMemTotal, reDescMemUsed,
      reDescMemBuf, reDescMemDRAM, reDescMemInstalled, reDescCpuUser, reDescCpuBackground,
      reDescCpuSystem, reDescCpuInterrupt, reDescCpuIdle, reDescLoadAvg,
      reDescMasterState, reDescMasterPrio, colPromDesc]
  · by_cases hp : toLower pd.PeerState = "established" <;>
      simp [bgpPeerEvents, hp, descValues_append, descValues_newGauge_ne,
        descValues_newCounter_ne, descValues_nil,
        descValues_cons_sample_self, descValues_cons_sample_ne,
        bgpDescPeerPeerState, bgpDescPeerInputMessages, bgpDescPeerOutputMessages,
        bgpDescPeerRouteQueueCount, bgpDescPeerFlapCount, bgpDescPeerElapsedTime,
        bgpDescPeerRIBActivePrefixCount, bgpDescPeerRIBReceivedPrefixCount,
        bgpDescPeerRIBAcceptedPrefixCount, bgpDescPeerRIBSuppressedPrefixCount,
        bgpPeerRIBLabels, colPromDesc]
  · by_cases h1 : toLower fi.State = "offline"
    · simp [processFPCItem, h1, descValues_append, descValues_nil,
        descValues_cons_sample_self, descValues_cons_sample_ne,
        fpcDescState, fpcDescTemp, fpcDescCPUTotal, fpcDescCPUInterrupt, fpcDescCPUAvg,
        fpcDescMemoryDramSize, fpcDescMemoryHeapUtil, fpcDescMemoryBufferUtil, colPromDesc]
    · by_cases h2 : toLower fi.State = "online"
      · simp [processFPCItem, h1, h2, descValues_append, descValues_nil,
          descValues_cons_sample_self, descValues_cons_sample_ne,
          fpcDescState, fpcDescTemp, fpcDescCPUTotal, fpcDescCPUInterrupt, fpcDescCPUAvg,
          fpcDescMemoryDramSize, fpcDescMemoryHeapUtil, fpcDescMemoryBufferUtil, colPromDesc]
      · by_cases h3 : toLower fi.State = "empty" <;>
          simp [processFPCItem, h1, h2, h3, descValues_append, descValues_nil,
            descValues_cons_sample_self, descValues_cons_sample_ne,
            fpcDescState, fpcDescTemp, fpcDescCPUTotal, fpcDescCPUInterrupt, fpcDescCPUAvg,
            fpcDescMemoryDramSize, fpcDescMemoryHeapUtil, fpcDescMemoryBufferUtil, colPromDesc]

/-! ## Claim C10 -/

/-- Claim C10: the route-engine mastership-priority gauge is 1.0 exactly
when the lowercased mastership-state text contains "master" and 0.0
otherwise, and it does not depend on the decoded mastership-priority XML
field (changing that field changes nothing). -/
theorem claim_C10 :
    (∀ re : reEntry,
      descValues reDescMasterPrio (processREEntry re) =
        [if strContains (toLower re.MastershipState) "master" then 1.0 else 0.0]) ∧
    (∀ (re : reEntry) (p : String),
      descValues reDescMasterPrio (processREEntry { re with MastershipPriority := p }) =
        descValues reDescMasterPrio (processREEntry re)) := by
  have h1 : ∀ re : reEntry,
      descValues reDescMasterPrio (processREEntry re) =
        [if strContains (toLower re.MastershipState) "master" then 1.0 else 0.0] := by
    intro re
    simp [processREEntry, descValues_append, descValues_newGauge_ne,
      descValues_newGaugeMB_ne, descValues_nil,
      descValues_cons_sample_self, descValues_cons_sample_ne,
      reDescState, reDescTemp, reDescCpuTemp, reDescUptime, reDescMemTotal, reDescMemUsed,
      reDescMemBuf, reDescMemDRAM, reDescMemInstalled, reDescCpuUser, reDescCpuBackground,
      reDescCpuSystem, reDescCpuInterrupt, reDescCpuIdle, reDescLoadAvg,
      reDescMasterState, reDescMasterPrio, colPromDesc]
  exact ⟨h1, fun re p => by rw [h1, h1]⟩

/-! ## Claim C4 -/

theorem descValues_logs (d : Desc) (msgs : List String) :
    descValues d (msgs.map (fun e => Event.logError e)) = [] := by
  simp [descValues, List.filterMap_map]

/-- Claim C4: after a collector's `Get` returns, the scheduler always emits
exactly one scrape-duration gauge and one cumulative error-total gauge, and
one collector-up gauge whose value is 0 exactly when the error list is
non-empty and 1 otherwise; every bookkeeping sample is labeled with the
collector's name. This holds in particular for an FPC collector whose sole
RPC call failed: its `Get` returns one error, a bumped counter and no
feature samples, and the scheduler still emits the duration gauge and
`collector_up = 0`. -/
theorem claim_C4 :
    ∀ (name : String) (errors : List String) (total duration : ℚ),
      descValues junosDescScrapeDuration (runCollector name errors total duration) = [duration] ∧
      descValues junosDescScrapeErrTotal (runCollector name errors total duration) = [total] ∧
      descValues junosDescCollectorUp (runCollector name errors total duration) =
        [if errors = [] then 1 else 0] ∧
      (∀ s ∈ samplesOf (runCollector name errors total duration), s.labelValues = [name]) ∧
      (∀ t : ℚ,
        (FPCCollectorGet ⟨true, none⟩ t).errors = ["could not execute netconf RPC call"] ∧
        (FPCCollectorGet ⟨true, none⟩ t).totalErrors = t + 1 ∧
        (FPCCollectorGet ⟨true, none⟩ t).events = [] ∧
        descValues junosDescCollectorUp
          (runCollector name (FPCCollectorGet ⟨true, none⟩ t).errors
            (FPCCollectorGet ⟨true, none⟩ t).totalErrors duration) = [0] ∧
        descValues junosDescScrapeDuration
          (runCollector name (FPCCollectorGet ⟨true, none⟩ t).errors
            (FPCCollectorGet ⟨true, none⟩ t).totalErrors duration) = [duration]) := by
  intro name errors total duration
  have hdur : ∀ (errs : List String) (tot : ℚ),
      descValues junosDescScrapeDuration (runCollector name errs tot duration)
      = [duration] := by
    intro errs tot
    cases errs with
    | nil =>
      simp [runCollector, descValues_cons_sample_self, descValues_cons_sample_ne,
        descValues_nil, junosDescScrapeDuration, junosDescScrapeErrTotal,
        junosDescCollectorUp, promDesc]
    | cons e es =>
      simp [runCollector, descValues_cons_sample_self, descValues_cons_sample_ne,
        descValues_cons_log, descValues_logs, descValues_append, descValues_nil,
        junosDescScrapeDuration, junosDescScrapeErrTotal, junosDescCollectorUp, promDesc]
  have herr : descValues junosDescScrapeErrTotal (runCollector name errors total duration)
      = [total] := by
    cases errors with
    | nil =>
      simp [runCollector, descValues_cons_sample_self, descValues_cons_sample_ne,
        descValues_nil, junosDescScrapeDuration, junosDescScrapeErrTotal,
        junosDescCollectorUp, promDesc]
    | cons e es =>
      simp [runCollector, descValues_cons_sample_self, descValues_cons_sample_ne,
        descValues_cons_log, descValues_logs, descValues_append, descValues_nil,
        junosDescScrapeDuration, junosDescScrapeErrTotal, junosDescCollectorUp, promDesc]
  have hup : ∀ (errs : List String) (tot : ℚ),
      descValues junosDescCollectorUp (runCollector name errs tot duration)
      = [if errs = [] then 1 else 0] := by
    intro errs tot
    cases errs with
    | nil =>
      simp [runCollector, descValues_cons_sample_self, descValues_cons_sample_ne,
        descValues_nil, junosDescScrapeDuration, junosDescScrapeErrTotal,
        junosDescCollectorUp, promDesc]
    | cons e es =>
      simp [runCollector, descValues_cons_sample_self, descValues_cons_sample_ne,
        descValues_cons_log, descValues_logs, descValues_append, descValues_nil,
        junosDescScrapeDuration, junosDescScrapeErrTotal, junosDescCollectorUp, promDesc]
  refine ⟨hdur errors total, herr, hup errors total, ?_, ?_⟩
  · intro s hs
    cases errors with
    | nil => simp [runCollector, samplesOf] at hs; rcases hs with rfl | rfl | rfl <;> rfl
    | cons e es =>
      simp [runCollector, samplesOf, List.filterMap_map] at hs
      rcases hs with rfl | rfl | rfl <;> rfl
  · intro t
    refine ⟨rfl, rfl, rfl, ?_, hdur _ _⟩
    show descValues junosDescCollectorUp
      (runCollector name ["could not execute netconf RPC call"] (t + 1) duration) = [0]
    rw [hup ["could not execute netconf RPC call"] (t + 1)]
    simp

/-- Claim C4, witness: the statement applied to a concrete failed-collector
run (one error, counter 3, duration 2). -/
theorem claim_C4_witness :
    descValues junosDescScrapeDuration (runCollector "fpc" ["boom"] 3 2) = [2] ∧
    descValues junosDescCollectorUp (runCollector "fpc" ["boom"] 3 2) = [0] ∧
    (⟨junosDescScrapeDuration, MetricKind.gauge, 2, ["fpc"]⟩ : Sample).labelValues
      = ["fpc"] := by
  have h := claim_C4 "fpc" ["boom"] 3 2
  refine ⟨h.1, (h.2.2.1).trans (by simp), h.2.2.2.1 _ ?_⟩
  exact List.mem_cons_self _ _

/-! ## Claim C2 -/

theorem trace_foldl_eq (P : String → Bool) (f : String → NetEvent) :
    ∀ (ns : List String) (tr0 : List NetEvent),
      ns.foldl (fun tr n => if P n then tr ++ [f n] else tr) tr0 =
        tr0 ++ (ns.filter P).map f := by
  intro ns
  induction ns with
  | nil => intro tr0; simp
  | cons n ns ih =>
    intro tr0
    by_cases h : P n <;> simp [List.foldl_cons, h, ih, List.filter_cons]

theorem bgpInstanceRPCTrace_eq (ns : List String) :
    bgpInstanceRPCTrace ns =
      (ns.filter nonReservedInstance).map (fun n => NetEvent.exec (instanceRPC n)) := by
  unfold bgpInstanceRPCTrace
  simpa using trace_foldl_eq nonReservedInstance (fun n => NetEvent.exec (instanceRPC n)) ns []

theorem sessionOpens_execs (l : List String) (f : String → String) :
    sessionOpens (l.map (fun n => NetEvent.exec (f n))) = 0 := by
  unfold sessionOpens
  rw [List.countP_eq_zero]
  intro a ha
  rcases List.mem_map.mp ha with ⟨n, _, rfl⟩
  simp

theorem sessionOpens_collector (c : CollectorModel) :
    sessionOpens (collectorGetTrace c) = 1 := by
  cases c with
  | fpc dev =>
    cases hd : dev.dialOk
    · simp [collectorGetTrace, FPCCollectorGet, hd, sessionOpens, List.countP_cons]
    · cases hr : dev.fpcReply <;>
        simp [collectorGetTrace, FPCCollectorGet, hd, hr, sessionOpens, List.countP_cons]
  | bgp cores =>
    simp [collectorGetTrace, BGPCollectorGetTrace, sessionOpens, List.countP_append,
      List.countP_cons, bgpInstanceRPCTrace_eq]

/-- Claim C2, counterexample: a scrape whose enabled collectors are the FPC
collector and the BGP collector opens two transport sessions (each
collector's `Get` dials its own), not exactly one shared by all
collectors, and `Collect` itself opens none. -/
theorem claim_C2_counterexample :
    sessionOpens (ExporterCollectTrace
      [CollectorModel.fpc ⟨true, some []⟩, CollectorModel.bgp []]) = 2 ∧ (2 : ℕ) ≠ 1 :=
  ⟨rfl, by decide⟩

/-- Claim C2, amended: `Exporter.Collect` opens no session of its own;
instead every enabled collector's `Get` opens exactly one session per
scrape for all of its RPCs, so a scrape with n enabled collectors opens n
sessions in total (one device connection per collector, many RPCs on each). -/
theorem claim_C2_amended :
    ∀ collectors : List CollectorModel,
      (∀ c ∈ collectors, sessionOpens (collectorGetTrace c) = 1) ∧
      sessionOpens (ExporterCollectTrace collectors) = collectors.length := by
  intro cs
  refine ⟨fun c _ => sessionOpens_collector c, ?_⟩
  induction cs with
  | nil => rfl
  | cons c cs ih =>
    show sessionOpens (collectorGetTrace c ++ (cs.map collectorGetTrace).flatten) = cs.length + 1
    have h2 : sessionOpens (collectorGetTrace c ++ (cs.map collectorGetTrace).flatten) =
        sessionOpens (collectorGetTrace c) + sessionOpens (ExporterCollectTrace cs) := by
      simp [sessionOpens, ExporterCollectTrace, List.countP_append]
    rw [h2, sessionOpens_collector c, ih]
    omega

/-- Claim C2, witness: the amended statement applied to a scrape with the
BGP collector as its only enabled collector. -/
theorem claim_C2_witness :
    sessionOpens (collectorGetTrace (CollectorModel.bgp [])) = 1 ∧
    sessionOpens (ExporterCollectTrace [CollectorModel.bgp []]) = 1 := by
  have h := claim_C2_amended [CollectorModel.bgp []]
  exact ⟨h.1 (CollectorModel.bgp []) (List.mem_singleton.mpr rfl), h.2⟩

/-! ## Claim C6 -/

theorem instanceRPC_inj (n m : String) (h : instanceRPC n = instanceRPC m) : n = m := by
  unfold instanceRPC at h
  have hd := congrArg String.data h
  simp only [String.data_append] at hd
  exact String.ext (List.append_cancel_left (List.append_cancel_right hd))

theorem mapInsert_keys (m : List (String × String)) (k v : String) :
    ((mapInsert m k v).map Prod.fst) =
      if m.any (fun p => p.1 = k) then m.map Prod.fst else m.map Prod.fst ++ [k] := by
  unfold mapInsert
  split
  · simp only [List.map_map]
    apply List.map_congr_left
    intro p _
    by_cases hp : p.1 = k <;> simp [hp]
  · simp

theorem mapInsert_keys_nodup (m : List (String × String)) (k v : String)
    (h : (m.map Prod.fst).Nodup) : ((mapInsert m k v).map Prod.fst).Nodup := by
  rw [mapInsert_keys]
  split
  · exact h
  · rename_i hany
    have hk : k ∉ m.map Prod.fst := by
      intro hkm
      rcases List.mem_map.mp hkm with ⟨p, hp, rfl⟩
      exact hany (List.any_eq_true.mpr ⟨p, hp, by simp⟩)
    simp [List.nodup_append, h, hk]

theorem instanceNames_nodup (cores : List routeInstanceCore) :
    (((getInstanceNameToRibName cores).2).map Prod.fst).Nodup := by
  have h : ∀ (l : List routeInstanceCore) (acc : List (String × String)),
      (acc.map Prod.fst).Nodup →
      ((l.foldl (fun routeInstanceNames instanceCore =>
        mapInsert routeInstanceNames instanceCore.InstanceName instanceCore.InstanceName)
        acc).map Prod.fst).Nodup := by
    intro l
    induction l with
    | nil => exact fun acc h => h
    | cons c l ih => exact fun acc hacc => ih _ (mapInsert_keys_nodup _ _ _ hacc)
  exact h cores [] (by simp)

theorem instanceRPC_ne_fixed (n : String) :
    instanceRPC n ≠ "<get-bgp-summary-information/>" ∧
    instanceRPC n ≠ "<get-bgp-neighbor-information/>" ∧
    instanceRPC n ≠ "<get-instance-information/>" := by
  have l1 : ("<get-bgp-summary-information><instance>" : String).length = 39 := rfl
  have l2 : ("</instance></get-bgp-summary-information>" : String).length = 41 := rfl
  have l3 : ("<get-bgp-summary-information/>" : String).length = 30 := rfl
  have l4 : ("<get-bgp-neighbor-information/>" : String).length = 31 := rfl
  have l5 : ("<get-instance-information/>" : String).length = 27 := rfl
  refine ⟨fun h => ?_, fun h => ?_, fun h => ?_⟩ <;> have hl := congrArg String.length h <;>
    rw [instanceRPC, String.length_append, String.length_append, l1, l2] at hl
  · rw [l3] at hl; omega
  · rw [l4] at hl; omega
  · rw [l5] at hl; omega

/-- Claim C6: for every decoded instance-enumeration reply, the BGP
collector issues exactly one additional per-instance BGP-summary RPC for
each discovered routing-instance name that contains none of `__master`,
`__juniper`, `mgmt_junos`, and none at all for a name containing one of
them. -/
theorem claim_C6 :
    ∀ (cores : List routeInstanceCore) (n : String),
      (nonReservedInstance n = true →
        n ∈ ((getInstanceNameToRibName cores).2).map Prod.fst →
        (BGPCollectorGetTrace cores).count (NetEvent.exec (instanceRPC n)) = 1) ∧
      (nonReservedInstance n = false →
        (BGPCollectorGetTrace cores).count (NetEvent.exec (instanceRPC n)) = 0) := by
  intro cores n
  have hinj : Function.Injective (fun x => NetEvent.exec (instanceRPC x)) := by
    intro a b hab
    simp only [NetEvent.exec.injEq] at hab
    exact instanceRPC_inj a b hab
  have hne := instanceRPC_ne_fixed n
  have hprefix : ([NetEvent.dialSSH,
      NetEvent.exec "<get-bgp-summary-information/>",
      NetEvent.exec "<get-bgp-neighbor-information/>",
      NetEvent.exec "<get-instance-information/>"]).count (NetEvent.exec (instanceRPC n)) = 0 := by
    simp [List.count_cons, hne.1, hne.2.1, hne.2.2]
  have hsplit : (BGPCollectorGetTrace cores).count (NetEvent.exec (instanceRPC n)) =
      ((((getInstanceNameToRibName cores).2.map Prod.fst).filter nonReservedInstance).map
        (fun x => NetEvent.exec (instanceRPC x))).count (NetEvent.exec (instanceRPC n)) := by
    rw [BGPCollectorGetTrace, bgpInstanceRPCTrace_eq, List.count_append, hprefix]
    omega
  have hcnt : ((((getInstanceNameToRibName cores).2.map Prod.fst).filter nonReservedInstance).map
      (fun x => NetEvent.exec (instanceRPC x))).count (NetEvent.exec (instanceRPC n)) =
      (((getInstanceNameToRibName cores).2.map Prod.fst).filter nonReservedInstance).count n :=
    List.count_map_of_injective _ _ hinj n
  refine ⟨fun hok hmem => ?_, fun hres => ?_⟩
  · rw [hsplit, hcnt]
    exact List.count_eq_one_of_mem
      ((instanceNames_nodup cores).filter nonReservedInstance)
      (List.mem_filter.mpr ⟨hmem, hok⟩)
  · rw [hsplit, hcnt]
    rw [List.count_eq_zero]
    intro hmem
    rw [List.mem_filter] at hmem
    rw [hres] at hmem
    exact Bool.false_ne_true hmem.2

/-- Claim C6, witness: the two routing instances `__master.anon` and
`CUSTOMER-A` give rise to exactly one extra per-instance summary RPC,
issued for `CUSTOMER-A` and not for `__master.anon`. -/
theorem claim_C6_witness :
    (BGPCollectorGetTrace [⟨"__master.anon", "forwarding", []⟩, ⟨"CUSTOMER-A", "vrf", []⟩]).count
      (NetEvent.exec (instanceRPC "CUSTOMER-A")) = 1 ∧
    (BGPCollectorGetTrace [⟨"__master.anon", "forwarding", []⟩, ⟨"CUSTOMER-A", "vrf", []⟩]).count
      (NetEvent.exec (instanceRPC "__master.anon")) = 0 := by
  constructor
  · exact (claim_C6 [⟨"__master.anon", "forwarding", []⟩, ⟨"CUSTOMER-A", "vrf", []⟩]
      "CUSTOMER-A").1 (by decide) (by decide)
  · exact (claim_C6 [⟨"__master.anon", "forwarding", []⟩, ⟨"CUSTOMER-A", "vrf", []⟩]
      "__master.anon").2 (by decide)

/-! ## Claim C7 -/

theorem takeWhile_until_plus (r : List Char) :
    ∀ (l : List Char), (∀ c ∈ l, c ≠ '+') →
      (l ++ '+' :: r).takeWhile (fun c => c ≠ '+') = l := by
  intro l
  induction l with
  | nil => simp [List.takeWhile_cons]
  | cons c l ih =>
    intro hl
    have hc : c ≠ '+' := hl c (List.mem_cons_self c l)
    rw [List.cons_append, List.takeWhile_cons_of_pos (by simp [hc]),
      ih (fun x hx => hl x (List.mem_cons_of_mem c hx))]

theorem samplesOf_newGauge_labels (d : Desc) (m : String) (l : List String) :
    ∀ s ∈ samplesOf (newGauge d m l), s.labelValues = l := by
  intro s hs
  unfold newGauge at hs
  split at hs
  · split at hs <;> simp [samplesOf] at hs <;> rw [hs]
  · simp [samplesOf] at hs

theorem samplesOf_newCounter_labels (d : Desc) (m : String) (l : List String) :
    ∀ s ∈ samplesOf (newCounter d m l), s.labelValues = l := by
  intro s hs
  unfold newCounter at hs
  split at hs
  · split at hs <;> simp [samplesOf] at hs <;> rw [hs]
  · simp [samplesOf] at hs

set_option maxHeartbeats 1000000 in
theorem bgpPeerEvents_labels (m : List (String × String)) (pd : bgpNeighborPeer) :
    ∀ s ∈ samplesOf (bgpPeerEvents m pd),
      s.labelValues = [trimSpace (resolvePeerAddress pd),
        trimSpace ((mapLookup m (resolvePeerAddress pd)).getD ""),
        trimSpace pd.NlriTypePeer] ++ [pd.PeerCfgRti] := by
  intro s hs
  simp only [bgpPeerEvents, samplesOf_append, List.mem_append] at hs
  rcases hs with ((((((((h | h) | h) | h) | h) | h) | h) | h) | h) | h
  · split at h <;> simp [samplesOf] at h <;> subst h <;> rfl
  all_goals first
    | exact samplesOf_newCounter_labels _ _ _ s h
    | exact samplesOf_newGauge_labels _ _ _ s h

/-- Claim C7: for every BGP peer entry, the peer address is the direct
`<peer-address>` field when non-empty, and otherwise the nested
`<bgp-peer-header><peer-address>` field; everything from the first `+`
(the "+port" suffix) is stripped off; and the stripped address is both the
first peer label value and the key under which the local-interface-name
label (the second label value) is looked up in the map built by
`getBgpPeerInterface`. -/
theorem claim_C7 :
    (∀ (a b : String), (∀ c ∈ a.data, c ≠ '+') →
      stripPort (a ++ "+" ++ b) = a) ∧
    (∀ pd : bgpNeighborPeer, pd.PeerAddress ≠ "" →
      resolvePeerAddress pd = stripPort pd.PeerAddress) ∧
    (∀ pd : bgpNeighborPeer, pd.PeerAddress = "" → pd.BGPPeerHeader.PeerAddress ≠ "" →
      resolvePeerAddress pd = stripPort pd.BGPPeerHeader.PeerAddress) ∧
    (∀ (m : List (String × String)) (pd : bgpNeighborPeer),
      ∀ s ∈ samplesOf (bgpPeerEvents m pd),
        s.labelValues.take 2 =
          [trimSpace (resolvePeerAddress pd),
           trimSpace ((mapLookup m (resolvePeerAddress pd)).getD "")]) := by
  refine ⟨fun a b ha => ?_, fun pd h => ?_, fun pd h1 h2 => ?_, fun m pd s hs => ?_⟩
  · show (⟨((a ++ "+" ++ b).data).takeWhile (fun c => c ≠ '+')⟩ : String) = a
    have hd : (a ++ "+" ++ b).data = a.data ++ '+' :: b.data := by
      simp [String.data_append]
    rw [hd, takeWhile_until_plus b.data a.data ha]
  · rw [resolvePeerAddress, if_pos h]
  · rw [resolvePeerAddress, if_neg (by simp [h1]), if_pos h2]
  · rw [bgpPeerEvents_labels m pd s hs]
    rfl

/-- Claim C7, witness: a neighbor entry with peer address "10.0.0.1+179"
and local interface "ge-0/0/0" produces a peer-state sample whose labels
begin ("10.0.0.1", "ge-0/0/0"). -/
theorem claim_C7_witness :
    stripPort ("10.0.0.1" ++ "+" ++ "179") = "10.0.0.1" ∧
    (⟨bgpDescPeerPeerState, MetricKind.gauge, 1.0,
      ["10.0.0.1", "ge-0/0/0", "inet", "CUST-RI"]⟩ : Sample).labelValues.take 2 =
      ["10.0.0.1", "ge-0/0/0"] := by
  constructor
  · exact claim_C7.1 "10.0.0.1" "179" (by decide)
  · refine (claim_C7.2.2.2
      (getBgpPeerInterface [⟨"10.0.0.1+179", ⟨"", "", "", ""⟩, "ge-0/0/0", "10", "12",
        "0", "1", "", "123", "Established", ⟨"", "", "", "", "", ""⟩, "CUST-RI", "inet"⟩])
      ⟨"10.0.0.1+179", ⟨"", "", "", ""⟩, "ge-0/0/0", "10", "12",
        "0", "1", "", "123", "Established", ⟨"", "", "", "", "", ""⟩, "CUST-RI", "inet"⟩
      _ ?_).trans rfl
    exact List.mem_cons_self _ _

/-! ## Claim C8 -/

theorem ribDescCount_append (d : Desc) (x : String) (a b : List Event) :
    ribDescCount d x (a ++ b) = ribDescCount d x a + ribDescCount d x b := by
  simp [ribDescCount, samplesOf_append, List.countP_append]

theorem ribDescCount_newGauge_ne_desc (d : Desc) (x : String) (d' : Desc) (t : String)
    (l : List String) (h : ¬ d' = d) : ribDescCount d x (newGauge d' t l) = 0 := by
  unfold newGauge
  split
  · split <;> simp [ribDescCount, samplesOf, List.countP_cons, h]
  · rfl

theorem ribDescCount_newGauge_le (d : Desc) (x : String) (d' : Desc) (t : String)
    (l : List String) : ribDescCount d x (newGauge d' t l) ≤ 1 := by
  unfold newGauge
  split
  · split <;> simp [ribDescCount, samplesOf, List.countP_cons] <;> split <;> omega
  · exact Nat.zero_le 1

theorem ribDescCount_eq_zero_of_labels (d : Desc) (x : String) (es : List Event)
    (h : ∀ s ∈ samplesOf es, ¬ s.labelValues = [x]) : ribDescCount d x es = 0 := by
  unfold ribDescCount
  rw [List.countP_eq_zero]
  intro s hs
  simp [h s hs]

theorem samplesOf_ribTotalEvents_labels (ribData : bgpSummaryInstanceRib) (l : List String) :
    ∀ s ∈ samplesOf (ribTotalEvents ribData l), s.labelValues = l := by
  intro s hs
  simp only [ribTotalEvents, samplesOf_append, List.mem_append] at hs
  rcases hs with ((((((((((h | h) | h) | h) | h) | h) | h) | h) | h) | h) | h) | h <;>
    exact samplesOf_newGauge_labels _ _ _ s h

theorem ribDescCount_ribTotalEvents_ne (d : Desc) (x b : String)
    (ribData : bgpSummaryInstanceRib) (hxb : ¬ x = b) :
    ribDescCount d x (ribTotalEvents ribData [b]) = 0 := by
  apply ribDescCount_eq_zero_of_labels
  intro s hs
  rw [samplesOf_ribTotalEvents_labels ribData [b] s hs]
  simp
  exact fun h => hxb h.symm

theorem ribTotalEvents_eq_flatten (ribData : bgpSummaryInstanceRib) (l : List String) :
    ribTotalEvents ribData l = (([
      (bgpDescRIBTotalPrefixCount, ribData.TotalPrefixCount),
      (bgpDescRIBHistoryPrefixCount, ribData.HistoryPrefixCount),
      (bgpDescRIBDampedPrefixCount, ribData.DampedPrefixCount),
      (bgpDescRIBTotalExternalPrefixCount, ribData.TotalExternalPrefixCount),
      (bgpDescRIBActiveExternalPrefixCount, ribData.ActiveExternalPrefixCount),
      (bgpDescRIBAcceptedExternalPrefixCount, ribData.AcceptedExternalPrefixCount),
      (bgpDescRIBSuppressedExternalPrefixCount, ribData.SuppressedExternalPrefixCount),
      (bgpDescRIBTotalInternalPrefixCount, ribData.TotalInternalPrefixCount),
      (bgpDescRIBActiveInternalPrefixCount, ribData.ActiveInternalPrefixCount),
      (bgpDescRIBAcceptedInternalPrefixCount, ribData.AcceptedInternalPrefixCount),
      (bgpDescRIBSuppressedInternalPrefixCount, ribData.SuppressedInternalPrefixCount),
      (bgpDescRIBPendingPrefixCount, ribData.PendingPrefixCount)]).map
        (fun c => newGauge c.1 c.2 l)).flatten := by
  simp [ribTotalEvents, List.append_assoc]

theorem ribDescCount_chain_zero (d : Desc) (x : String) (l : List String) :
    ∀ calls : List (Desc × String), (∀ c ∈ calls, ¬ c.1 = d) →
      ribDescCount d x ((calls.map (fun c => newGauge c.1 c.2 l)).flatten) = 0 := by
  intro calls
  induction calls with
  | nil => exact fun _ => rfl
  | cons c cs ih =>
    intro h
    simp only [List.map_cons, List.flatten_cons, ribDescCount_append]
    rw [ribDescCount_newGauge_ne_desc d x c.1 c.2 l (h c (List.mem_cons_self c cs)),
      ih (fun c' hc' => h c' (List.mem_cons_of_mem c hc'))]

theorem ribDescCount_chain_le (d : Desc) (x : String) (l : List String) :
    ∀ calls : List (Desc × String), (calls.map Prod.fst).Nodup →
      ribDescCount d x ((calls.map (fun c => newGauge c.1 c.2 l)).flatten) ≤ 1 := by
  intro calls
  induction calls with
  | nil => exact fun _ => Nat.zero_le 1
  | cons c cs ih =>
    intro hnd
    rw [List.map_cons, List.nodup_cons] at hnd
    simp only [List.map_cons, List.flatten_cons, ribDescCount_append]
    by_cases hd : c.1 = d
    · have hz : ribDescCount d x ((cs.map (fun c => newGauge c.1 c.2 l)).flatten) = 0 := by
        apply ribDescCount_chain_zero
        intro c' hc' heq
        exact hnd.1 (by rw [← hd] at heq; rw [← heq]; exact List.mem_map_of_mem Prod.fst hc')
      rw [hz]
      have hle := ribDescCount_newGauge_le d x c.1 c.2 l
      omega
    · rw [ribDescCount_newGauge_ne_desc d x c.1 c.2 l hd]
      simpa using ih hnd.2

theorem ribDescCount_ribTotalEvents_le (d : Desc) (x b : String)
    (ribData : bgpSummaryInstanceRib) :
    ribDescCount d x (ribTotalEvents ribData [b]) ≤ 1 := by
  rw [ribTotalEvents_eq_flatten]
  apply ribDescCount_chain_le
  exact (show ribTotalDescList.Nodup by decide)

theorem ribFold_inv (d : Desc) (riKey b : String) (ribs : List bgpSummaryInstanceRib) :
    ∀ st : BGPInstanceState, RibInv d st →
      RibInv d (ribs.foldl (fun st3 ribData =>
        if ribData.Name = riKey then
          if st3.routeInstanceCheck.contains b then st3
          else { routeInstanceCheck := b :: st3.routeInstanceCheck,
                 events := st3.events ++ ribTotalEvents ribData [b] }
        else st3) st) := by
  induction ribs with
  | nil => exact fun st h => h
  | cons ribData ribs ih =>
    intro st h
    rw [List.foldl_cons]
    apply ih
    by_cases h1 : ribData.Name = riKey
    · rw [if_pos h1]
      by_cases h2 : st.routeInstanceCheck.contains b
      · rw [if_pos h2]; exact h
      · rw [if_neg h2]
        have hbmem : b ∉ st.routeInstanceCheck := by
          intro hmem
          exact h2 (List.elem_eq_true_of_mem hmem)
        intro y
        have hy := h y
        constructor
        · show ribDescCount d y (st.events ++ ribTotalEvents ribData [b]) ≤ 1
          rw [ribDescCount_append]
          by_cases hyb : y = b
          · subst hyb
            have h0 : ribDescCount d y st.events = 0 := by
              by_contra hpos
              exact hbmem (hy.2 (Nat.one_le_iff_ne_zero.mpr hpos))
            rw [h0]
            simpa using ribDescCount_ribTotalEvents_le d y y ribData
          · rw [ribDescCount_ribTotalEvents_ne d y b ribData hyb]
            omega
        · intro hge
          show y ∈ b :: st.routeInstanceCheck
          by_cases hyb : y = b
          · exact hyb ▸ List.mem_cons_self b st.routeInstanceCheck
          · apply List.mem_cons_of_mem
            apply hy.2
            have hadd : ribDescCount d y (st.events ++ ribTotalEvents ribData [b]) =
                ribDescCount d y st.events := by
              rw [ribDescCount_append, ribDescCount_ribTotalEvents_ne d y b ribData hyb]
              omega
            rw [hadd] at hge
            exact hge
    · rw [if_neg h1]; exact h

theorem riFold_inv (d : Desc) (b : String) (inst : bgpSummaryInstance)
    (ri : List (String × String)) :
    ∀ st : BGPInstanceState, RibInv d st →
      RibInv d (ri.foldl (fun st2 routeInstance =>
        if b = routeInstance.2 then
          inst.BgpRib.foldl (fun st3 ribData =>
            if ribData.Name = routeInstance.1 then
              if st3.routeInstanceCheck.contains b then st3
              else { routeInstanceCheck := b :: st3.routeInstanceCheck,
                     events := st3.events ++ ribTotalEvents ribData [b] }
            else st3) st2
        else st2) st) := by
  induction ri with
  | nil => exact fun st h => h
  | cons routeInstance ri ih =>
    intro st h
    rw [List.foldl_cons]
    apply ih
    by_cases h1 : b = routeInstance.2
    · rw [if_pos h1]
      exact ribFold_inv d routeInstance.1 b inst.BgpRib st h
    · rw [if_neg h1]; exact h

theorem headEvents_inv (d : Desc) (st : BGPInstanceState) (b : String)
    (inst : bgpSummaryInstance)
    (hd1 : ¬ bgpDescGroupCount = d) (hd2 : ¬ bgpDescPeerCount = d)
    (hd3 : ¬ bgpDescDownPeerCount = d) (h : RibInv d st) :
    RibInv d { st with events := (st.events ++
      newGauge bgpDescGroupCount inst.GroupCount [b] ++
      newGauge bgpDescPeerCount inst.PeerCount [b] ++
      newGauge bgpDescDownPeerCount inst.DownPeerCount [b]) } := by
  intro y
  have hy := h y
  have hsame : ribDescCount d y (st.events ++
      newGauge bgpDescGroupCount inst.GroupCount [b] ++
      newGauge bgpDescPeerCount inst.PeerCount [b] ++
      newGauge bgpDescDownPeerCount inst.DownPeerCount [b]) =
      ribDescCount d y st.events := by
    rw [ribDescCount_append, ribDescCount_append, ribDescCount_append,
      ribDescCount_newGauge_ne_desc d y bgpDescGroupCount _ _ hd1,
      ribDescCount_newGauge_ne_desc d y bgpDescPeerCount _ _ hd2,
      ribDescCount_newGauge_ne_desc d y bgpDescDownPeerCount _ _ hd3]
    omega
  constructor
  · show ribDescCount d y (st.events ++
      newGauge bgpDescGroupCount inst.GroupCount [b] ++
      newGauge bgpDescPeerCount inst.PeerCount [b] ++
      newGauge bgpDescDownPeerCount inst.DownPeerCount [b]) ≤ 1
    rw [hsame]; exact hy.1
  · intro hge
    show y ∈ st.routeInstanceCheck
    apply hy.2
    rw [← hsame]
    exact hge

theorem bgpInstanceStep_inv (d : Desc) (ri : List (String × String)) (st : BGPInstanceState)
    (entry : String × bgpSummaryInstance)
    (hd1 : ¬ bgpDescGroupCount = d) (hd2 : ¬ bgpDescPeerCount = d)
    (hd3 : ¬ bgpDescDownPeerCount = d) (h : RibInv d st) :
    RibInv d (bgpInstanceStep ri st entry) := by
  unfold bgpInstanceStep
  exact riFold_inv d entry.1 entry.2 ri _ (headEvents_inv d st entry.1 entry.2 hd1 hd2 hd3 h)

/-- Claim C8: within one BGP `Get` call, each of the twelve
per-routing-instance RIB-total gauges — `rib_total_prefixes` and its
companion `rib_*` gauges — is emitted at most once per routing instance,
whatever the correlation maps and per-instance replies contain, because the
`routeInstanceCheck` set local to the call guards the whole emission block. -/
theorem claim_C8 :
    ∀ (routeInstances : List (String × String))
      (replyBgpSummaryInstance : List (String × bgpSummaryInstance)) (x : String),
      ∀ d ∈ ribTotalDescList,
        ribDescCount d x
          (processBGPInstanceEvents routeInstances replyBgpSummaryInstance) ≤ 1 := by
  intro ri reply x d hd
  have hd1 : ¬ bgpDescGroupCount = d := by fin_cases hd <;> decide
  have hd2 : ¬ bgpDescPeerCount = d := by fin_cases hd <;> decide
  have hd3 : ¬ bgpDescDownPeerCount = d := by fin_cases hd <;> decide
  have hinv : ∀ st : BGPInstanceState, RibInv d st →
      RibInv d (reply.foldl (bgpInstanceStep ri) st) := by
    induction reply with
    | nil => exact fun st h => h
    | cons entry reply ih =>
      intro st h
      rw [List.foldl_cons]
      exact ih _ (bgpInstanceStep_inv d ri st entry hd1 hd2 hd3 h)
  have hinit : RibInv d ⟨[], []⟩ := by
    intro y
    have h0 : ribDescCount d y (⟨[], []⟩ : BGPInstanceState).events = 0 := rfl
    exact ⟨by rw [h0]; omega, fun hge => by rw [h0] at hge; omega⟩
  exact ((hinv ⟨[], []⟩ hinit) x).1

/-- Claim C8, witness: a routing instance reachable through two correlation
paths (two iribs of `CUSTOMER-A`, each matching a RIB of the reply) still
gets its `rib_total_prefixes` gauge exactly once. -/
theorem claim_C8_witness :
    ribDescCount bgpDescRIBTotalPrefixCount "CUSTOMER-A"
      (processBGPInstanceEvents
        [("inet.0", "CUSTOMER-A"), ("inet6.0", "CUSTOMER-A")]
        [("CUSTOMER-A", ⟨"1", "2", "0",
          [⟨"inet.0", "5", "0", "0", "0", "0", "0", "0", "0", "0", "0", "0", "0"⟩,
           ⟨"inet6.0", "7", "0", "0", "0", "0", "0", "0", "0", "0", "0", "0", "0"⟩]⟩)]) ≤ 1 ∧
    ribDescCount bgpDescRIBTotalPrefixCount "CUSTOMER-A"
      (processBGPInstanceEvents
        [("inet.0", "CUSTOMER-A"), ("inet6.0", "CUSTOMER-A")]
        [("CUSTOMER-A", ⟨"1", "2", "0",
          [⟨"inet.0", "5", "0", "0", "0", "0", "0", "0", "0", "0", "0", "0", "0"⟩,
           ⟨"inet6.0", "7", "0", "0", "0", "0", "0", "0", "0", "0", "0", "0", "0"⟩]⟩)]) = 1 := by
  constructor
  · exact claim_C8 [("inet.0", "CUSTOMER-A"), ("inet6.0", "CUSTOMER-A")]
      [("CUSTOMER-A", ⟨"1", "2", "0",
        [⟨"inet.0", "5", "0", "0", "0", "0", "0", "0", "0", "0", "0", "0", "0"⟩,
         ⟨"inet6.0", "7", "0", "0", "0", "0", "0", "0", "0", "0", "0", "0", "0"⟩]⟩)]
      "CUSTOMER-A" bgpDescRIBTotalPrefixCount (by decide)
  · rfl

/-! ## Claim C9 -/

theorem arityOk_newGauge (d : Desc) (m : String) (l : List String)
    (h : l.length = d.labelNames.length) : (newGauge d m l).all arityOk = true := by
  unfold newGauge
  split
  · split <;> simp [arityOk, h]
  · rfl

theorem arityOk_newCounter (d : Desc) (m : String) (l : List String)
    (h : l.length = d.labelNames.length) : (newCounter d m l).all arityOk = true := by
  unfold newCounter
  split
  · split <;> simp [arityOk, h]
  · rfl

theorem arityOk_newGaugeMB (d : Desc) (m : String) (l : List String)
    (h : l.length = d.labelNames.length) : (newGaugeMB d m l).all arityOk = true := by
  unfold newGaugeMB
  split
  · split <;> simp [arityOk, h]
  · rfl

theorem all_arity_flatten {α : Type _} (f : α → List Event) (l : List α)
    (h : ∀ a, (f a).all arityOk = true) : ((l.map f).flatten).all arityOk = true := by
  induction l with
  | nil => rfl
  | cons a l ih => simp [List.all_append, h a, ih]

theorem processPowerItem_arity (pd : powerItem) :
    (processPowerItem pd).all arityOk = true := by
  simp [processPowerItem, List.all_append, List.all_cons, arityOk,
    arityOk_newGauge, powerDescState, powerDescCapacityActual, powerDescCapacityMax,
    powerDescACInputState, powerDescACExpectedFeeds, powerDescACConnectedFeeds,
    powerDescDCOutputPower, powerDescDCOutputCurrent, powerDescDCOutputVoltage,
    powerDescDCOutputLoad, colPromDesc]

theorem processPowerSystem_arity (ps : powerSystem) :
    (processPowerSystem ps).all arityOk = true := by
  simp only [processPowerSystem, List.all_append]
  rw [all_arity_flatten _ _ (fun zone => by
    simp [List.all_append, arityOk_newGauge, powerDescCapacityZoneActual,
      powerDescCapacityZoneMax, powerDescCapacityZoneAllocated,
      powerDescCapacityZoneRemaining, powerDescCapacityZoneUsage, colPromDesc])]
  simp [arityOk_newGauge, powerDescCapacitySysActual, powerDescCapacitySysMax,
    powerDescCapacitySysRemaining, colPromDesc]

theorem processPower_arity (r : powerInformation) :
    (processPowerNetconfReply r).all arityOk = true := by
  simp only [processPowerNetconfReply, List.all_append]
  rw [all_arity_flatten _ _ processPowerItem_arity,
    all_arity_flatten _ _ processPowerSystem_arity,
    all_arity_flatten _ _ (fun fruItem => arityOk_newGauge _ _ _ (by
      simp [powerDescDCUsage, colPromDesc]))]
  rfl

theorem processFPCItem_arity (fi : fpcItem) :
    (processFPCItem fi).all arityOk = true := by
  by_cases h1 : toLower fi.State = "offline"
  · simp [processFPCItem, h1, List.all_append, List.all_cons, arityOk,
      fpcDescState, colPromDesc]
  · by_cases h2 : toLower fi.State = "online"
    · simp [processFPCItem, h1, h2, List.all_append, List.all_cons, arityOk,
        fpcDescState, fpcDescTemp, fpcDescCPUTotal, fpcDescCPUInterrupt, fpcDescCPUAvg,
        fpcDescMemoryDramSize, fpcDescMemoryHeapUtil, fpcDescMemoryBufferUtil, colPromDesc]
    · by_cases h3 : toLower fi.State = "empty" <;>
        simp [processFPCItem, h1, h2, h3, List.all_append, List.all_cons, arityOk,
          fpcDescState, colPromDesc]

theorem processREEntry_arity (re : reEntry) :
    (processREEntry re).all arityOk = true := by
  by_cases h : re.Slot = "" <;>
  simp [processREEntry, h, List.all_append, List.all_cons, arityOk,
    arityOk_newGauge, arityOk_newGaugeMB,
    reDescState, reDescTemp, reDescCpuTemp, reDescUptime, reDescMemTotal, reDescMemUsed,
    reDescMemBuf, reDescMemDRAM, reDescMemInstalled, reDescCpuUser, reDescCpuBackground,
    reDescCpuSystem, reDescCpuInterrupt, reDescCpuIdle, reDescLoadAvg,
    reDescMasterState, reDescMasterPrio, colPromDesc]

theorem bgpPeerEvents_arity (m : List (String × String)) (pd : bgpNeighborPeer) :
    (bgpPeerEvents m pd).all arityOk = true := by
  by_cases hp : toLower pd.PeerState = "established" <;>
    simp [bgpPeerEvents, hp, List.all_append, List.all_cons, arityOk,
      arityOk_newGauge, arityOk_newCounter,
      bgpDescPeerPeerState, bgpDescPeerInputMessages, bgpDescPeerOutputMessages,
      bgpDescPeerRouteQueueCount, bgpDescPeerFlapCount, bgpDescPeerElapsedTime,
      bgpDescPeerRIBActivePrefixCount, bgpDescPeerRIBReceivedPrefixCount,
      bgpDescPeerRIBAcceptedPrefixCount, bgpDescPeerRIBSuppressedPrefixCount,
      bgpPeerRIBLabels, colPromDesc]

theorem ribTotalEvents_arity (ribData : bgpSummaryInstanceRib) (b : String) :
    (ribTotalEvents ribData [b]).all arityOk = true := by
  simp [ribTotalEvents, List.all_append, arityOk_newGauge,
    bgpDescRIBTotalPrefixCount, bgpDescRIBHistoryPrefixCount, bgpDescRIBDampedPrefixCount,
    bgpDescRIBTotalExternalPrefixCount, bgpDescRIBActiveExternalPrefixCount,
    bgpDescRIBAcceptedExternalPrefixCount, bgpDescRIBSuppressedExternalPrefixCount,
    bgpDescRIBTotalInternalPrefixCount, bgpDescRIBActiveInternalPrefixCount,
    bgpDescRIBAcceptedInternalPrefixCount, bgpDescRIBSuppressedInternalPrefixCount,
    bgpDescRIBPendingPrefixCount, colPromDesc]

theorem ribFold_arity (riKey b : String) (ribs : List bgpSummaryInstanceRib) :
    ∀ st : BGPInstanceState, st.events.all arityOk = true →
      ((ribs.foldl (fun st3 ribData =>
        if ribData.Name = riKey then
          if st3.routeInstanceCheck.contains b then st3
          else { routeInstanceCheck := b :: st3.routeInstanceCheck,
                 events := st3.events ++ ribTotalEvents ribData [b] }
        else st3) st).events).all arityOk = true := by
  induction ribs with
  | nil => exact fun st h => h
  | cons ribData ribs ih =>
    intro st h
    rw [List.foldl_cons]
    apply ih
    by_cases h1 : ribData.Name = riKey
    · rw [if_pos h1]
      by_cases h2 : st.routeInstanceCheck.contains b
      · rw [if_pos h2]; exact h
      · rw [if_neg h2]
        show (st.events ++ ribTotalEvents ribData [b]).all arityOk = true
        simp [List.all_append, h, ribTotalEvents_arity]
    · rw [if_neg h1]; exact h

theorem riFold_arity (b : String) (inst : bgpSummaryInstance) (ri : List (String × String)) :
    ∀ st : BGPInstanceState, st.events.all arityOk = true →
      ((ri.foldl (fun st2 routeInstance =>
        if b = routeInstance.2 then
          inst.BgpRib.foldl (fun st3 ribData =>
            if ribData.Name = routeInstance.1 then
              if st3.routeInstanceCheck.contains b then st3
              else { routeInstanceCheck := b :: st3.routeInstanceCheck,
                     events := st3.events ++ ribTotalEvents ribData [b] }
            else st3) st2
        else st2) st).events).all arityOk = true := by
  induction ri with
  | nil => exact fun st h => h
  | cons routeInstance ri ih =>
    intro st h
    rw [List.foldl_cons]
    apply ih
    by_cases h1 : b = routeInstance.2
    · rw [if_pos h1]
      exact ribFold_arity routeInstance.1 b inst.BgpRib st h
    · rw [if_neg h1]; exact h

theorem bgpInstanceStep_arity (ri : List (String × String)) (st : BGPInstanceState)
    (entry : String × bgpSummaryInstance) (h : st.events.all arityOk = true) :
    ((bgpInstanceStep ri st entry).events).all arityOk = true := by
  unfold bgpInstanceStep
  apply riFold_arity entry.1 entry.2 ri
  show (st.events ++ newGauge bgpDescGroupCount entry.2.GroupCount [entry.1] ++
    newGauge bgpDescPeerCount entry.2.PeerCount [entry.1] ++
    newGauge bgpDescDownPeerCount entry.2.DownPeerCount [entry.1]).all arityOk = true
  simp [List.all_append, h, arityOk_newGauge, bgpDescGroupCount, bgpDescPeerCount,
    bgpDescDownPeerCount, colPromDesc]

theorem processBGPInstanceEvents_arity (ri : List (String × String))
    (reply : List (String × bgpSummaryInstance)) :
    (processBGPInstanceEvents ri reply).all arityOk = true := by
  have h : ∀ st : BGPInstanceState, st.events.all arityOk = true →
      ((reply.foldl (bgpInstanceStep ri) st).events).all arityOk = true := by
    induction reply with
    | nil => exact fun st h => h
    | cons entry reply ih =>
      intro st hst
      rw [List.foldl_cons]
      exact ih _ (bgpInstanceStep_arity ri st entry hst)
  exact h ⟨[], []⟩ rfl

theorem ifaceDescrLabels_length (f : String → Option String) :
    ∀ (keys : List String) (init : List String),
      (keys.foldl (fun ls configuredKey =>
        match f configuredKey with
        | none => ls ++ [""]
        | some v => ls ++ [v]) init).length = init.length + keys.length := by
  intro keys
  induction keys with
  | nil => intro init; simp
  | cons k keys ih =>
    intro init
    rw [List.foldl_cons]
    cases f k <;> rw [ih] <;> simp <;> omega

theorem ifaceDescrEvents_arity (keys : List String) (name : String)
    (f : String → Option String) : (ifaceDescrEvents keys name f).all arityOk = true := by
  unfold ifaceDescrEvents
  split
  · apply arityOk_newCounter
    rw [ifaceDescrLabels_length f keys [trimSpace name]]
    simp [ifaceDescriptionDesc, colPromDesc]
    omega
  · rfl

theorem runCollector_arity (name : String) (errors : List String) (total duration : ℚ) :
    (runCollector name errors total duration).all arityOk = true := by
  cases errors with
  | nil =>
    simp [runCollector, List.all_append, List.all_cons, arityOk,
      junosDescScrapeDuration, junosDescScrapeErrTotal, junosDescCollectorUp, promDesc]
  | cons e es =>
    simp [runCollector, List.all_append, List.all_cons, arityOk, List.all_map,
      junosDescScrapeDuration, junosDescScrapeErrTotal, junosDescCollectorUp, promDesc,
      Function.comp]

/-- Claim C9: every sample emitted by the embedded pipeline functions — the
power, FPC and route-engine reply processors, the BGP peer loop and
routing-instance section (including every label slice built by appending to
a shared base slice: the per-timespan CPU labels, the per-class PRECL-style
suffixes, the per-instance RIB labels), the interface description-key
emission, and the scheduler bookkeeping — supplies exactly as many label
values as its Desc declares label names. -/
theorem claim_C9 :
    (∀ r : powerInformation, (processPowerNetconfReply r).all arityOk = true) ∧
    (∀ items : List fpcItem, (processFPCNetconfReply items).all arityOk = true) ∧
    (∀ entries : List reEntry, (processRENetconfReply entries).all arityOk = true) ∧
    (∀ (m : List (String × String)) (pd : bgpNeighborPeer),
      (bgpPeerEvents m pd).all arityOk = true) ∧
    (∀ (ri : List (String × String)) (reply : List (String × bgpSummaryInstance)),
      (processBGPInstanceEvents ri reply).all arityOk = true) ∧
    (∀ (keys : List String) (name : String) (f : String → Option String),
      (ifaceDescrEvents keys name f).all arityOk = true) ∧
    (∀ (name : String) (errors : List String) (total duration : ℚ),
      (runCollector name errors total duration).all arityOk = true) :=
  ⟨processPower_arity,
   fun _ => all_arity_flatten _ _ processFPCItem_arity,
   fun _ => all_arity_flatten _ _ processREEntry_arity,
   bgpPeerEvents_arity,
   processBGPInstanceEvents_arity,
   ifaceDescrEvents_arity,
   runCollector_arity⟩

end JunosExporter
